import Mathlib

set_option maxRecDepth 100000

/-!
# Checkpoint/Resume subsystem: formal model and verification

A shallow embedding of the Gyoshu checkpoint/resume subsystem (checkpoint
data model and validation, checkpoint manager operations save / validate /
resume / prune / emergency, the rehydration-code generator, the marker
parser, and the interrupt-escalation procedure).

The executable implementation of these components is not present in the
repository snapshot (only their tests, plans and documentation are), so the
definitions below are modelled from the specification, cross-checked against
the expectations recorded in the repository's test files.

SHA-256 itself is an external cryptographic primitive; it is modelled as an
explicit hash-function parameter `h : String → String` threaded through every
operation that hashes content, so that integrity properties can be stated for
the manager's use of the hash rather than for the compression function.
-/

namespace Gyoshu

/-! ## Character classes and small string utilities -/

/-- Lowercase ASCII letter. -/
def isLowerAscii (c : Char) : Bool :=
  'a' ≤ c && c ≤ 'z'

/-- ASCII digit. -/
def isDigitAscii (c : Char) : Bool :=
  '0' ≤ c && c ≤ '9'

/-- Lowercase hexadecimal digit. -/
def isHexLower (c : Char) : Bool :=
  isDigitAscii c || ('a' ≤ c && c ≤ 'f')

/-- Modelled from the spec: SHA-256 fields must be "64 lowercase hex chars"
(§3); the schema rejects SHA-256 fields that are not exactly 64 hex
characters. -/
def isSha256Hex (s : String) : Bool :=
  s.length == 64 && s.toList.all isHexLower

/-! ## Stage-ID pattern

`docs/stage-protocol.md` gives the stage-ID JSON-schema pattern
`^S[0-9]{2}_[a-z]+_[a-z_]+$`. The matcher below consumes `S`, two digits,
`_`, then a nonempty lowercase run, `_`, then a nonempty run of lowercase
letters and underscores; splitting at the first underscore after the verb is
equivalent to the regex's existential split. -/

/-- Matches `[a-z_]+` (nonempty). -/
def matchNounTail (cs : List Char) : Bool :=
  !cs.isEmpty && cs.all (fun c => isLowerAscii c || c == '_')

/-- Matches the remainder of `[a-z]+_[a-z_]+` after its first character:
consumes lowercase letters until the first `_`, which must be followed by a
nonempty `[a-z_]+` run. -/
def matchVerbTail : List Char → Bool
  | [] => false
  | '_' :: rest => matchNounTail rest
  | c :: rest => isLowerAscii c && matchVerbTail rest

/-- Modelled from the spec: the stage-ID naming pattern
`^S[0-9]{2}_[a-z]+_[a-z_]+$` of the stage envelope JSON schema
(docs/stage-protocol.md), also required of `CheckpointManifest.stageId`. -/
def isValidStageId (s : String) : Bool :=
  match s.toList with
  | 'S' :: d1 :: d2 :: '_' :: c :: rest =>
      isDigitAscii d1 && isDigitAscii d2 && isLowerAscii c && matchVerbTail rest
  | _ => false

/-! ## ISO-8601 timestamps -/

/-- Matches fractional-second digits followed by the terminating `Z`
(at least one digit). -/
def fracThenZ : List Char → Bool
  | [] => false
  | ['Z'] => false
  | [c, 'Z'] => isDigitAscii c
  | c :: rest => isDigitAscii c && fracThenZ rest

/-- Matches the tail of a timestamp after the seconds field: either `Z`
directly or `.` followed by fractional digits and `Z`. -/
def timestampTail : List Char → Bool
  | ['Z'] => true
  | '.' :: rest => fracThenZ rest
  | _ => false

/-- Modelled from the spec: `createdAt` is an ISO-8601 UTC timestamp
(`YYYY-MM-DDTHH:MM:SS[.fff]Z`); malformed timestamps are a validation
failure. -/
def isValidTimestamp (s : String) : Bool :=
  match s.toList with
  | y1 :: y2 :: y3 :: y4 :: '-' :: m1 :: m2 :: '-' :: d1 :: d2 :: 'T' ::
    h1 :: h2 :: ':' :: n1 :: n2 :: ':' :: s1 :: s2 :: rest =>
      [y1, y2, y3, y4, m1, m2, d1, d2, h1, h2, n1, n2, s1, s2].all isDigitAscii
        && timestampTail rest
  | _ => false

/-! ## Checkpoint data model -/

/-- Checkpoint lifecycle status (§3). -/
inductive CheckpointStatus where
  | saved
  | interrupted
  | emergency
deriving DecidableEq, Repr

/-- Reason attached to an emergency checkpoint (§3). -/
inductive EmergencyReason where
  | timeout
  | abort
  | error
deriving DecidableEq, Repr

/-- One artifact the checkpoint depends on (§3). -/
structure ArtifactEntry where
  relativePath : String
  sha256 : String
  sizeBytes : Int
deriving DecidableEq, Repr

/-- Where the checkpoint marker cell lives (§3). -/
structure NotebookRef where
  path : String
  checkpointCellId : String
deriving DecidableEq, Repr

/-- Environment fingerprint for reproducibility (§3). `randomSeeds` is an
association list of named random generators to seed values. -/
structure PythonEnv where
  pythonPath : String
  packages : List String
  platform : String
  randomSeeds : List (String × Int)
deriving DecidableEq, Repr

/-- Rehydration mode (§3). -/
inductive RehydrationMode where
  | artifacts_only
  | with_vars
deriving DecidableEq, Repr

/-- Rehydration configuration stored in the manifest (§3). -/
structure RehydrationConfig where
  mode : RehydrationMode
  rehydrationCellSource : List String
deriving DecidableEq, Repr

/-- The manifest body: every field of a `CheckpointManifest` except the
integrity seal `manifestSha256`, which is computed over the serialized
body (§3). -/
structure ManifestBody where
  checkpointId : String
  researchSessionID : String
  reportTitle : String
  runId : String
  stageId : String
  createdAt : String
  executionCount : Int
  status : CheckpointStatus
  reason : Option EmergencyReason
  notebook : NotebookRef
  pythonEnv : PythonEnv
  artifacts : List ArtifactEntry
  rehydration : RehydrationConfig
deriving DecidableEq, Repr

/-- A full checkpoint manifest: body plus the `manifestSha256` integrity
seal (§3). -/
structure Manifest where
  body : ManifestBody
  manifestSha256 : String
deriving DecidableEq, Repr

/-! ## Manifest serialization and sealing -/

/-- Serialize one artifact entry. -/
def serializeArtifact (a : ArtifactEntry) : String :=
  a.relativePath ++ "|" ++ a.sha256 ++ "|" ++ toString a.sizeBytes

/-- Serialize one named random seed. -/
def serializeSeed (p : String × Int) : String :=
  p.1 ++ "=" ++ toString p.2

/-- Render a checkpoint status. -/
def CheckpointStatus.render : CheckpointStatus → String
  | .saved => "saved"
  | .interrupted => "interrupted"
  | .emergency => "emergency"

/-- Render an emergency reason. -/
def EmergencyReason.render : EmergencyReason → String
  | .timeout => "timeout"
  | .abort => "abort"
  | .error => "error"

/-- Render a rehydration mode. -/
def RehydrationMode.render : RehydrationMode → String
  | .artifacts_only => "artifacts_only"
  | .with_vars => "with_vars"

/-- Modelled from the spec: the manifest body is serialized
(`JSON.stringify(manifestBase, null, 2)` in the tests) before hashing; the
exact pretty-printed JSON text is abstracted as this deterministic
field-by-field rendering, with the `manifestSha256` field excluded. -/
def serializeBody (b : ManifestBody) : String :=
  String.intercalate "\n"
    [ b.checkpointId, b.researchSessionID, b.reportTitle, b.runId, b.stageId,
      b.createdAt, toString b.executionCount, b.status.render,
      (match b.reason with | none => "" | some r => r.render),
      b.notebook.path, b.notebook.checkpointCellId,
      b.pythonEnv.pythonPath, String.intercalate "," b.pythonEnv.packages,
      b.pythonEnv.platform,
      String.intercalate "," (b.pythonEnv.randomSeeds.map serializeSeed),
      String.intercalate ";" (b.artifacts.map serializeArtifact),
      b.rehydration.mode.render,
      String.intercalate "\x7b" b.rehydration.rehydrationCellSource ]

/-- The hash function used for both manifest seals and artifact content
hashes (SHA-256 in the implementation, abstracted as a parameter). -/
abbrev HashFn := String → String

/-- The seal check: recompute the hash over the serialized body (excluding
`manifestSha256`) and compare with the stored seal. -/
def sealOk (h : HashFn) (m : Manifest) : Bool :=
  m.manifestSha256 == h (serializeBody m.body)

/-! ## Schema validation (§4.1)

`validate(candidate) → Result<Manifest, Errors[]>`: pure, side-effect-free
field validation. The checks below follow the spec's list — malformed
timestamps, negative counts, SHA-256 fields that are not exactly 64 hex
characters, stage IDs violating the naming pattern, `emergency` status
without `reason` — and the schema tests in the repository. -/

/-- Errors for one artifact entry. -/
def artifactErrors (a : ArtifactEntry) : List String :=
  (if isSha256Hex a.sha256 then [] else ["artifact sha256 must be 64 hex chars: " ++ a.relativePath])
    ++ (if a.sizeBytes < 0 then ["artifact sizeBytes must be >= 0: " ++ a.relativePath] else [])

/-- Modelled from the spec: `validateCheckpointManifest` (Zod schema in
`src/lib/checkpoint-schema.ts`, absent from the snapshot) returns the list of
field-constraint violations; the manifest is accepted exactly when the list
is empty. Pure by construction. -/
def validateCheckpointManifest (m : Manifest) : List String :=
  (if isValidTimestamp m.body.createdAt then [] else ["createdAt must be a valid ISO-8601 timestamp"])
    ++ (if m.body.executionCount < 0 then ["executionCount must be >= 0"] else [])
    ++ (if isValidStageId m.body.stageId then [] else ["stageId must match S{NN}_{verb}_{noun}"])
    ++ (m.body.artifacts.flatMap artifactErrors)
    ++ (if isSha256Hex m.manifestSha256 then [] else ["manifestSha256 must be 64 hex chars"])
    ++ (if m.body.status = .emergency && m.body.reason.isNone then ["emergency status requires a reason"] else [])

/-- Schema acceptance: no errors. -/
def schemaOk (m : Manifest) : Bool :=
  validateCheckpointManifest m |>.isEmpty

/-! ## Filesystem model and deep validation

The filesystem is an association list from relative paths to file contents.
Deep validation of a checkpoint (used by the `validate` and `resume`
actions) re-checks the seal, the schema, and every declared artifact's
hash and size (§4.2). -/

/-- Artifact store: relative path ↦ content. -/
abbrev FileSys := List (String × String)

/-- Look up a file's content by relative path. -/
def lookupFile (fs : FileSys) (p : String) : Option String :=
  match fs with
  | [] => none
  | (q, c) :: rest => if q == p then some c else lookupFile rest p

/-- Modelled from the spec: one artifact passes deep validation when it
exists on disk and its SHA-256 hash and size match the manifest entry. -/
def artifactOk (h : HashFn) (fs : FileSys) (a : ArtifactEntry) : Bool :=
  match lookupFile fs a.relativePath with
  | none => false
  | some content => h content == a.sha256 && (content.length : Int) == a.sizeBytes

/-- Modelled from the spec: full validation of a candidate manifest —
manifest integrity (seal), field constraints, and every declared artifact's
hash and size (§4.2 `validate` / the per-candidate check of `resume`). -/
def deepValid (h : HashFn) (fs : FileSys) (m : Manifest) : Bool :=
  sealOk h m && schemaOk m && m.body.artifacts.all (artifactOk h fs)

/-! ## Checkpoint store

One entry of a report's checkpoint directory
(`reports/{reportTitle}/checkpoints/{runId}/{checkpointId}/checkpoint.json`).
A stored file either failed to parse as JSON (`corrupt`) or parsed to a
manifest. -/

/-- The parsed-or-corrupt payload of one `checkpoint.json` file. -/
inductive StoredPayload where
  | corrupt
  | manifest (m : Manifest)
deriving DecidableEq, Repr

/-- One candidate checkpoint in the store. -/
structure Entry where
  payload : StoredPayload
deriving DecidableEq, Repr

/-- Creation-time sort key of an entry; unparseable files carry no
timestamp and sort last. -/
def entryKey (e : Entry) : String :=
  match e.payload with
  | .corrupt => ""
  | .manifest m => m.body.createdAt

/-- Lexicographic `≤` on character lists (by code point). ISO-8601 UTC
timestamps compare chronologically under this order. -/
def lexLeChars : List Char → List Char → Bool
  | [], _ => true
  | _ :: _, [] => false
  | a :: as, b :: bs =>
      if a.toNat < b.toNat then true
      else if b.toNat < a.toNat then false
      else lexLeChars as bs

/-- Lexicographic `≤` on strings. -/
def lexLe (s t : String) : Bool :=
  lexLeChars s.toList t.toList

/-- `lexLeChars` is total. -/
theorem lexLeChars_total : ∀ as bs : List Char,
    lexLeChars as bs = true ∨ lexLeChars bs as = true
  | [], _ => Or.inl rfl
  | _ :: _, [] => Or.inr rfl
  | a :: as, b :: bs => by
    rcases Nat.lt_trichotomy a.toNat b.toNat with hlt | heq | hgt
    · exact Or.inl (by simp [lexLeChars, hlt])
    · have h1 : ¬ a.toNat < b.toNat := by omega
      have h2 : ¬ b.toNat < a.toNat := by omega
      rcases lexLeChars_total as bs with h | h
      · exact Or.inl (by simp [lexLeChars, h1, h2, h])
      · exact Or.inr (by simp [lexLeChars, h1, h2, h])
    · exact Or.inr (by simp [lexLeChars, hgt])

/-- `lexLeChars` is transitive. -/
theorem lexLeChars_trans : ∀ as bs cs : List Char,
    lexLeChars as bs = true → lexLeChars bs cs = true → lexLeChars as cs = true
  | [], _, _ => fun _ _ => rfl
  | _ :: _, [], _ => fun h _ => by simp [lexLeChars] at h
  | _ :: _, _ :: _, [] => fun _ h => by simp [lexLeChars] at h
  | a :: as, b :: bs, c :: cs => by
    intro hab hbc
    by_cases h1 : a.toNat < b.toNat <;> by_cases h2 : b.toNat < c.toNat
    · simp [lexLeChars]; omega
    · simp [lexLeChars, h2] at hbc
      obtain ⟨h3, -⟩ := hbc
      simp [lexLeChars]
      omega
    · simp [lexLeChars, h1] at hab
      obtain ⟨h3, -⟩ := hab
      simp [lexLeChars]
      omega
    · simp [lexLeChars, h1] at hab
      simp [lexLeChars, h2] at hbc
      obtain ⟨h3, hab'⟩ := hab
      obtain ⟨h4, hbc'⟩ := hbc
      simp [lexLeChars]
      by_cases hac : a.toNat < c.toNat
      · exact Or.inl hac
      · exact Or.inr ⟨by omega, lexLeChars_trans as bs cs hab' hbc'⟩

/-- `lexLeChars` is reflexive. -/
theorem lexLeChars_refl : ∀ as : List Char, lexLeChars as as = true
  | [] => rfl
  | a :: as => by simp [lexLeChars, lexLeChars_refl as]

/-- Reverse-chronological order on entries (newest `createdAt` first). -/
def entryGE (a b : Entry) : Prop :=
  lexLe (entryKey b) (entryKey a) = true

instance : DecidableRel entryGE := fun a b =>
  inferInstanceAs (Decidable (lexLe (entryKey b) (entryKey a) = true))

instance : IsTotal Entry entryGE :=
  ⟨fun a b => (lexLeChars_total (entryKey b).toList (entryKey a).toList).imp id id⟩

instance : IsTrans Entry entryGE :=
  ⟨fun _ _ _ hab hbc => lexLeChars_trans _ _ _ hbc hab⟩

/-- Sort the candidates in reverse chronological order of `createdAt`. -/
def sortByCreatedDesc (entries : List Entry) : List Entry :=
  List.insertionSort entryGE entries

/-- A candidate's manifest when it parses and fully validates; `none` for
corrupt, tampered, or schema-invalid candidates. -/
def validManifestOf (h : HashFn) (fs : FileSys) (e : Entry) : Option Manifest :=
  match e.payload with
  | .corrupt => none
  | .manifest m => if deepValid h fs m then some m else none

/-- Scan a candidate list in order for the first fully valid checkpoint,
skipping (and counting) every candidate that fails validation. Returns the
entry, its manifest, and the number of candidates examined. -/
def scanEntries (h : HashFn) (fs : FileSys) : List Entry → Option (Entry × Manifest × Nat)
  | [] => none
  | e :: rest =>
      match validManifestOf h fs e with
      | some m => some (e, m, 1)
      | none => (scanEntries h fs rest).map (fun t => (t.1, t.2.1, t.2.2 + 1))

/-- The entry `resume` would currently select from a candidate list (used
by `prune` to protect it). -/
def firstValid (h : HashFn) (fs : FileSys) (entries : List Entry) : Option Entry :=
  (scanEntries h fs (sortByCreatedDesc entries)).map (fun t => t.1)

/-! ## Next-stage inference -/

/-- Two-digit zero-padded rendering of a stage sequence number. -/
def pad2 (n : Nat) : String :=
  if n < 10 then "0" ++ toString n else toString n

/-- Modelled from the spec: `nextStageId` is computed by incrementing the
two-digit sequence number of the checkpoint's `stageId`
(e.g. `S02_...` → `S03_`). Returns `none` when the stage ID does not start
with `S` and two digits. -/
def computeNextStageId (stageId : String) : Option String :=
  match stageId.toList with
  | 'S' :: d1 :: d2 :: _ =>
      if isDigitAscii d1 && isDigitAscii d2 then
        some ("S" ++ pad2 ((d1.toNat - '0'.toNat) * 10 + (d2.toNat - '0'.toNat) + 1) ++ "_")
      else none
  | _ => none

/-! ## Rehydration generator (§4.3)

`generateRehydrationCode(manifest) → string[]`: pure; one import per
artifact kind actually present (deduplicated), one load expression per
artifact using its `relativePath` with the variable derived from the file's
base name, seed restoration in a fixed order, then a final line printing the
`[REHYDRATED:from=<checkpointId>]` marker. -/

/-- Last path component of a relative path. -/
def baseNameAux (comp : List Char) : List Char → List Char
  | [] => comp.reverse
  | '/' :: rest => baseNameAux [] rest
  | c :: rest => baseNameAux (c :: comp) rest

/-- Strip the extension (everything from the last dot on). -/
def stripExt (cs : List Char) : List Char :=
  if cs.contains '.' then (cs.reverse.dropWhile (fun c => c != '.')).tail.reverse
  else cs

/-- Variable name derived from an artifact's base name: extension stripped,
non-identifier characters replaced by underscores. -/
def varNameOf (p : String) : String :=
  String.mk ((stripExt (baseNameAux [] p.toList)).map
    (fun c => if isLowerAscii c || isDigitAscii c || ('A' ≤ c && c ≤ 'Z') then c else '_'))

/-- Artifact kinds the generator knows how to load. -/
inductive ArtifactKind where
  | parquet
  | csv
  | pkl
  | joblib
  | json
  | other
deriving DecidableEq, Repr

/-- Suffix test on strings by character list (the `endsWith` of the
implementation). -/
def strEndsWith (s suf : String) : Bool :=
  suf.toList.isSuffixOf s.toList

/-- Classify an artifact by its file extension. -/
def artifactKind (a : ArtifactEntry) : ArtifactKind :=
  if strEndsWith a.relativePath ".parquet" then .parquet
  else if strEndsWith a.relativePath ".csv" then .csv
  else if strEndsWith a.relativePath ".pkl" then .pkl
  else if strEndsWith a.relativePath ".joblib" then .joblib
  else if strEndsWith a.relativePath ".json" then .json
  else .other

/-- Does the artifact list need the pandas import (`.parquet` / `.csv`)? -/
def needsPandas (arts : List ArtifactEntry) : Bool :=
  arts.any (fun a => artifactKind a == .parquet || artifactKind a == .csv)

/-- Does the artifact list need the pickle import (`.pkl`)? -/
def needsPickle (arts : List ArtifactEntry) : Bool :=
  arts.any (fun a => artifactKind a == .pkl)

/-- Does the artifact list need the joblib import (`.joblib`)? -/
def needsJoblib (arts : List ArtifactEntry) : Bool :=
  arts.any (fun a => artifactKind a == .joblib)

/-- Does the artifact list need the json import (`.json`)? -/
def needsJson (arts : List ArtifactEntry) : Bool :=
  arts.any (fun a => artifactKind a == .json)

/-- The deduplicated import section: one import statement per artifact kind
actually present. -/
def rehydrationImports (arts : List ArtifactEntry) : List String :=
  (if needsPandas arts then ["import pandas as pd"] else [])
    ++ (if needsPickle arts then ["import pickle"] else [])
    ++ (if needsJoblib arts then ["import joblib"] else [])
    ++ (if needsJson arts then ["import json"] else [])

/-- Load lines for one artifact, by kind. -/
def artifactLoadLines (a : ArtifactEntry) : List String :=
  match artifactKind a with
  | .parquet => [varNameOf a.relativePath ++ " = pd.read_parquet(\"" ++ a.relativePath ++ "\")"]
  | .csv => [varNameOf a.relativePath ++ " = pd.read_csv(\"" ++ a.relativePath ++ "\")"]
  | .pkl => ["with open(\"" ++ a.relativePath ++ "\", \"rb\") as f:",
             "    " ++ varNameOf a.relativePath ++ " = pickle.load(f)"]
  | .joblib => [varNameOf a.relativePath ++ " = joblib.load(\"" ++ a.relativePath ++ "\")"]
  | .json => ["with open(\"" ++ a.relativePath ++ "\", \"r\") as f:",
              "    " ++ varNameOf a.relativePath ++ " = json.load(f)"]
  | .other => ["# unsupported artifact type (skipped): " ++ a.relativePath]

/-- Seed-restoration lines, in a fixed order (`random` first, then
`numpy`), as the spec prescribes. -/
def seedLines (seeds : List (String × Int)) : List String :=
  (match seeds.lookup "random" with
   | some n => ["import random", "random.seed(" ++ toString n ++ ")"]
   | none => [])
    ++ (match seeds.lookup "numpy" with
        | some n => ["import numpy as np", "np.random.seed(" ++ toString n ++ ")"]
        | none => [])

/-- The final marker line: prints `[REHYDRATED:from=<checkpointId>]`. -/
def rehydratedMarkerLine (checkpointId : String) : String :=
  "print(\"[REHYDRATED:from=" ++ checkpointId ++ "]\")"

/-- Modelled from the spec: `generateRehydrationCode(manifest) → string[]`
(§4.3) — header comments, deduplicated kind imports, one load expression per
artifact, seed restoration, and the final `REHYDRATED` marker line. Pure. -/
def generateRehydrationCode (b : ManifestBody) : List String :=
  ["# Rehydration cell - auto-generated by checkpoint-manager",
   "# Load artifacts from checkpoint"]
    ++ rehydrationImports b.artifacts
    ++ b.artifacts.flatMap artifactLoadLines
    ++ seedLines b.pythonEnv.randomSeeds
    ++ [rehydratedMarkerLine b.checkpointId]

/-! ## Resume (§4.2)

`resume(reportTitle, runId?)`: scan candidates in reverse chronological
order, validating each until the first fully valid one; corrupt or tampered
candidates are skipped; `{found: false, searchedCount}` when the directory
is empty or nothing validates — never an error. -/

/-- The successful part of a resume result: the checkpoint plus generated
rehydration cells and the inferred next stage ID. -/
structure ResumeOk where
  checkpoint : Manifest
  rehydrationCells : List String
  nextStageId : Option String
deriving DecidableEq, Repr

/-- The result of the `resume` action. `success` is `true` in every branch:
"nothing to resume" is a normal outcome, not a failure. -/
structure ResumeResult where
  success : Bool
  found : Bool
  searchedCount : Nat
  payload : Option ResumeOk
deriving DecidableEq, Repr

/-- Modelled from the spec: the `resume` core algorithm (§4.2). The
candidate list stands for the manifests under the run's checkpoint
directory (or all runs when `runId` is omitted). -/
def resume (h : HashFn) (fs : FileSys) (entries : List Entry) : ResumeResult :=
  let sorted := sortByCreatedDesc entries
  match scanEntries h fs sorted with
  | some (_, m, n) =>
      { success := true, found := true, searchedCount := n,
        payload := some { checkpoint := m,
                          rehydrationCells := generateRehydrationCode m.body,
                          nextStageId := computeNextStageId m.body.stageId } }
  | none =>
      { success := true, found := false, searchedCount := sorted.length, payload := none }

/-! ## Save and emergency (§4.2) -/

/-- The caller-supplied arguments of the `save` action. -/
structure SaveArgs where
  reportTitle : String
  runId : String
  checkpointId : String
  researchSessionID : String
  stageId : String
  createdAt : String
  executionCount : Int
  notebook : NotebookRef
  pythonEnv : PythonEnv
  artifacts : List ArtifactEntry
  rehydrationMode : RehydrationMode
deriving Repr

/-- Build the manifest body `save` writes from its arguments. -/
def bodyOfSave (args : SaveArgs) : ManifestBody :=
  { checkpointId := args.checkpointId
    researchSessionID := args.researchSessionID
    reportTitle := args.reportTitle
    runId := args.runId
    stageId := args.stageId
    createdAt := args.createdAt
    executionCount := args.executionCount
    status := .saved
    reason := none
    notebook := args.notebook
    pythonEnv := args.pythonEnv
    artifacts := args.artifacts
    rehydration := { mode := args.rehydrationMode
                     rehydrationCellSource := generateRehydrationCode (bodyOfSaveAux args) } }
where
  /-- The body before the rehydration cell source is attached (the generator
  only reads the artifact and seed fields). -/
  bodyOfSaveAux (args : SaveArgs) : ManifestBody :=
    { checkpointId := args.checkpointId
      researchSessionID := args.researchSessionID
      reportTitle := args.reportTitle
      runId := args.runId
      stageId := args.stageId
      createdAt := args.createdAt
      executionCount := args.executionCount
      status := .saved
      reason := none
      notebook := args.notebook
      pythonEnv := args.pythonEnv
      artifacts := args.artifacts
      rehydration := { mode := args.rehydrationMode, rehydrationCellSource := [] } }

/-- The sealed manifest `save` writes: seal computed over the finalized
body. -/
def savedManifestOf (h : HashFn) (args : SaveArgs) : Manifest :=
  { body := bodyOfSave args, manifestSha256 := h (serializeBody (bodyOfSave args)) }

/-- The store entry `save` produces. -/
def savedEntryOf (h : HashFn) (args : SaveArgs) : Entry :=
  { payload := .manifest (savedManifestOf h args) }

/-- Modelled from the spec: `save` writes the manifest only after all
referenced artifacts are confirmed to exist, failing with `ArtifactMissing`
otherwise; it computes `manifestSha256` over the finalized body and appends
it as the last write step (§4.2). -/
def save (h : HashFn) (fs : FileSys) (args : SaveArgs) : Except String Entry :=
  if args.artifacts.all (fun a => (lookupFile fs a.relativePath).isSome) then
    .ok (savedEntryOf h args)
  else
    .error "ArtifactMissing"

/-- The manifest body `emergency` writes, before the rehydration cell
source is attached. -/
def emergencyBodyCore (reportTitle runId checkpointId researchSessionID stageId : String)
    (reason : EmergencyReason) (createdAt : String) (notebook : NotebookRef)
    (pythonEnv : PythonEnv) (executionCount : Int) : ManifestBody :=
  { checkpointId := checkpointId
    researchSessionID := researchSessionID
    reportTitle := reportTitle
    runId := runId
    stageId := stageId
    createdAt := createdAt
    executionCount := executionCount
    status := .interrupted
    reason := some reason
    notebook := notebook
    pythonEnv := pythonEnv
    artifacts := []
    rehydration := { mode := .artifacts_only, rehydrationCellSource := [] } }

/-- The manifest body `emergency` writes. -/
def emergencyBody (reportTitle runId checkpointId researchSessionID stageId : String)
    (reason : EmergencyReason) (createdAt : String) (notebook : NotebookRef)
    (pythonEnv : PythonEnv) (executionCount : Int) : ManifestBody :=
  { emergencyBodyCore reportTitle runId checkpointId researchSessionID stageId reason
      createdAt notebook pythonEnv executionCount with
    rehydration := { mode := .artifacts_only
                     rehydrationCellSource := generateRehydrationCode
                       (emergencyBodyCore reportTitle runId checkpointId researchSessionID
                         stageId reason createdAt notebook pythonEnv executionCount) } }

/-- The sealed manifest `emergency` writes. -/
def emergencyManifest (h : HashFn)
    (reportTitle runId checkpointId researchSessionID stageId : String)
    (reason : EmergencyReason) (createdAt : String) (notebook : NotebookRef)
    (pythonEnv : PythonEnv) (executionCount : Int) : Manifest :=
  { body := emergencyBody reportTitle runId checkpointId researchSessionID stageId reason
      createdAt notebook pythonEnv executionCount
    manifestSha256 := h (serializeBody (emergencyBody reportTitle runId checkpointId
      researchSessionID stageId reason createdAt notebook pythonEnv executionCount)) }

/-- Modelled from the spec: `emergency(reportTitle, runId, stageId, reason)`
writes a manifest with `status: "interrupted"` and the given `reason`,
skipping artifact existence/hash checks — it takes no filesystem at all and
declares no artifacts (§4.2; the checkpoint id, session id, notebook
reference and environment are generated by the implementation and appear
here as arguments). -/
def emergency (h : HashFn) (reportTitle runId checkpointId researchSessionID stageId : String)
    (reason : EmergencyReason) (createdAt : String) (notebook : NotebookRef)
    (pythonEnv : PythonEnv) (executionCount : Int) : Entry :=
  { payload := .manifest (emergencyManifest h reportTitle runId checkpointId
      researchSessionID stageId reason createdAt notebook pythonEnv executionCount) }

/-! ## Prune (§4.2)

`prune(reportTitle, runId, keepCount=5)`: delete checkpoints beyond the
`keepCount` most recent, oldest first, never removing the checkpoint that
`resume` would currently select. -/

/-- The outcome of a `prune`: the entries kept and the entries deleted, in
deletion order (oldest first). -/
structure PruneResult where
  kept : List Entry
  deleted : List Entry
deriving DecidableEq, Repr

/-- Modelled from the spec: `prune` keeps the `keepCount` most recent
checkpoints plus (always) the checkpoint `resume` would currently select,
and deletes the rest oldest-first (§4.2). -/
def prune (h : HashFn) (fs : FileSys) (keepCount : Nat) (entries : List Entry) : PruneResult :=
  let sorted := sortByCreatedDesc entries
  let base := sorted.take keepCount
  let kept :=
    match firstValid h fs entries with
    | some sel => if sel ∈ base then base else base ++ [sel]
    | none => base
  let deleted :=
    match firstValid h fs entries with
    | some sel => ((sorted.drop keepCount).filter (fun e => decide (e ≠ sel))).reverse
    | none => (sorted.drop keepCount).reverse
  { kept := kept, deleted := deleted }

/-- The default retention count of `prune`. -/
def defaultKeepCount : Nat := 5

/-! ## Interrupt escalation (§4.4)

The graduated signal sequence interrupt → terminate → force-kill with a
configured grace period `G`: wait up to `G` ms after the interrupt, up to
`max(G/2, 1000)` ms after the terminate, then force-kill (which always
succeeds, accounting for the final 1000 ms). -/

/-- Which signal achieved termination. -/
inductive TermSignal where
  | sigint
  | sigterm
  | sigkill
deriving DecidableEq, Repr

/-- How a stage process responds to signals: `intResponse` / `termResponse`
give the time (ms) after which the process would exit once sent the
corresponding signal, `none` when it ignores the signal entirely. -/
structure StageBehavior where
  intResponse : Option Nat
  termResponse : Option Nat
deriving DecidableEq, Repr

/-- A stage that ignores both the interrupt and the terminate signal. -/
def unresponsiveStage : StageBehavior :=
  { intResponse := none, termResponse := none }

/-- Modelled from the spec: the default escalation configuration exported by
the implementation (`ESCALATION_DEFAULTS` in the tests: `gracePeriodMs`
5000, `sigtermGraceMs` 3000). -/
structure EscalationDefaults where
  gracePeriodMs : Nat
  sigtermGraceMs : Nat
deriving DecidableEq, Repr

/-- The exported defaults. -/
def ESCALATION_DEFAULTS : EscalationDefaults :=
  { gracePeriodMs := 5000, sigtermGraceMs := 3000 }

/-- The wait window after the terminate signal: `max(G/2, 1000)` ms
(`calculateSigtermGrace` in the repository's escalation tests). -/
def calculateSigtermGrace (gracePeriodMs : Nat) : Nat :=
  max (gracePeriodMs / 2) 1000

/-- Modelled from the spec: the escalation procedure (§4.4). Send the
interrupt signal and wait up to `g` ms; if still alive, send the terminate
signal and wait up to `max(g/2, 1000)` ms; if still alive, force-kill,
which always succeeds within the final 1000 ms. Returns the signal that
achieved termination and the elapsed time in ms. -/
def escalate (g : Nat) (st : StageBehavior) : TermSignal × Nat :=
  match st.intResponse with
  | some d =>
      if d ≤ g then (.sigint, d)
      else escalateTerm g st
  | none => escalateTerm g st
where
  /-- The terminate-then-kill tail of the escalation. -/
  escalateTerm (g : Nat) (st : StageBehavior) : TermSignal × Nat :=
    match st.termResponse with
    | some d =>
        if d ≤ calculateSigtermGrace g then (.sigterm, g + d)
        else (.sigkill, g + calculateSigtermGrace g + 1000)
    | none => (.sigkill, g + calculateSigtermGrace g + 1000)

/-- The guaranteed upper bound on the time to termination
(`calculateMaxEscalationTime` in the repository's escalation tests). -/
def calculateMaxEscalationTime (gracePeriodMs : Nat) : Nat :=
  gracePeriodMs + calculateSigtermGrace gracePeriodMs + 1000

/-! ## Marker parser

Lifecycle markers are lines of the form `[TYPE:subtype:k=v:...] content`
(§6). The parser is total: a marker-shaped line whose type is not in the
taxonomy is still returned, flagged invalid and recorded in
`unknownTypes`, never dropped and never an error. -/

/-- Category of a marker type in the taxonomy. -/
inductive MarkerCategory where
  | workflow
  | research
deriving DecidableEq, Repr

/-- Modelled from the spec: the marker taxonomy (`MARKER_TAXONOMY` in
`src/lib/marker-parser.ts`, absent from the snapshot); `STAGE`,
`CHECKPOINT`, `REHYDRATED` and `INFO` are `WORKFLOW` markers per the
parser's tests, the research-narration types form the rest. -/
def MARKER_TAXONOMY : List (String × MarkerCategory) :=
  [("STAGE", .workflow), ("CHECKPOINT", .workflow), ("REHYDRATED", .workflow),
   ("INFO", .workflow), ("OBJECTIVE", .research), ("DATA", .research),
   ("SHAPE", .research), ("FINDING", .research), ("METRIC", .research)]

/-- Is a type in the taxonomy? -/
def taxonomyHas (ty : String) : Bool :=
  MARKER_TAXONOMY.any (fun d => d.1 == ty)

/-- One parsed marker. -/
structure Marker where
  type : String
  subtype : Option String
  attributes : List (String × String)
  content : String
  valid : Bool
deriving DecidableEq, Repr

/-- Split a character list at the first `]`, returning the part before it
and the part after it; `none` when there is no `]`. -/
def takeToClose : List Char → Option (List Char × List Char)
  | [] => none
  | ']' :: rest => some ([], rest)
  | c :: rest => (takeToClose rest).map (fun p => (c :: p.1, p.2))

/-- Character allowed in a marker type name. -/
def isMarkerTypeChar (c : Char) : Bool :=
  ('A' ≤ c && c ≤ 'Z') || c == '_' || isDigitAscii c

/-- Split a character list at every occurrence of `c` (the `splitOn` of
the implementation, over character lists). -/
def splitOnCharAux (c : Char) : List Char → List Char → List (List Char)
  | [], acc => [acc.reverse]
  | x :: xs, acc =>
      if x == c then acc.reverse :: splitOnCharAux c xs []
      else splitOnCharAux c xs (x :: acc)

/-- Split a character list on a separator character. -/
def splitOnChar (c : Char) (cs : List Char) : List (List Char) :=
  splitOnCharAux c cs []

/-- Rejoin character-list pieces with a separator character. -/
def joinWithChar (c : Char) : List (List Char) → List Char
  | [] => []
  | [x] => x
  | x :: xs => x ++ c :: joinWithChar c xs

/-- The lines of a text. -/
def splitLines (text : String) : List String :=
  (splitOnChar '\n' text.toList).map (fun cs => String.mk cs)

/-- Parse one `k=v` attribute token. -/
def parseAttribute (t : List Char) : String × String :=
  match splitOnChar '=' t with
  | [] => ("", "")
  | k :: vs => (String.mk k, String.mk (joinWithChar '=' vs))

/-- Modelled from the spec: parse one line as a marker
`[TYPE:subtype:k=v:...] content`; `none` when the line is not
marker-shaped, a `Marker` flagged by taxonomy membership otherwise. -/
def parseMarkerLine (line : String) : Option Marker :=
  match line.toList with
  | '[' :: rest =>
      match takeToClose rest with
      | none => none
      | some (header, after) =>
          match splitOnChar ':' header with
          | [] => none
          | ty :: attrs =>
              if !ty.isEmpty && ty.all isMarkerTypeChar then
                some { type := String.mk ty
                       subtype := ((attrs.filter (fun t => !t.contains '=')).head?).map
                         (fun cs => String.mk cs)
                       attributes := (attrs.filter (fun t => t.contains '=')).map parseAttribute
                       content := String.mk (after.dropWhile (fun c => c == ' '))
                       valid := taxonomyHas (String.mk ty) }
              else none
  | _ => none

/-- The result of `parseMarkers`. -/
structure MarkerParseResult where
  markers : List Marker
  validCount : Nat
  unknownCount : Nat
  unknownTypes : List String
deriving DecidableEq, Repr

/-- Modelled from the spec: `parseMarkers(text)` scans every line, keeps
every marker-shaped line (known taxonomy type or not), and tallies valid
and unknown markers. -/
def parseMarkers (text : String) : MarkerParseResult :=
  let markers := (splitLines text).filterMap parseMarkerLine
  { markers := markers
    validCount := (markers.filter (fun m => m.valid)).length
    unknownCount := (markers.filter (fun m => !m.valid)).length
    unknownTypes := (markers.filter (fun m => !m.valid)).map (fun m => m.type) }

/-! ## Helper lemmas: scanning and sorting -/

/-- A valid candidate exposes its parsed manifest and passes deep
validation. -/
theorem validManifestOf_some {h : HashFn} {fs : FileSys} {e : Entry} {m : Manifest}
    (hv : validManifestOf h fs e = some m) :
    e.payload = .manifest m ∧ deepValid h fs m = true := by
  cases e with
  | mk payload =>
    cases payload with
    | corrupt => simp [validManifestOf] at hv
    | manifest m' =>
      by_cases hd : deepValid h fs m' = true
      · simp [validManifestOf, hd] at hv
        subst hv
        exact ⟨rfl, hd⟩
      · simp [validManifestOf, hd] at hv

/-- A valid candidate's sort key is its manifest's creation timestamp. -/
theorem entryKey_of_valid {h : HashFn} {fs : FileSys} {e : Entry} {m : Manifest}
    (hv : validManifestOf h fs e = some m) :
    entryKey e = m.body.createdAt := by
  obtain ⟨hp, _⟩ := validManifestOf_some hv
  simp [entryKey, hp]

/-- A successful scan splits the candidate list into a fully invalid prefix,
the selected candidate, and the remainder; the search count is the number of
candidates examined. -/
theorem scanEntries_eq_some {h : HashFn} {fs : FileSys} :
    ∀ {l : List Entry} {e : Entry} {m : Manifest} {n : Nat},
      scanEntries h fs l = some (e, m, n) →
      ∃ l₁ l₂, l = l₁ ++ e :: l₂ ∧ (∀ x ∈ l₁, validManifestOf h fs x = none) ∧
        validManifestOf h fs e = some m ∧ n = l₁.length + 1
  | [], e, m, n => by simp [scanEntries]
  | x :: rest, e, m, n => by
    intro hscan
    cases hx : validManifestOf h fs x with
    | some mx =>
      rw [scanEntries, hx] at hscan
      obtain ⟨he, hm, hn⟩ : x = e ∧ mx = m ∧ 1 = n := by
        simpa using hscan
      exact ⟨[], rest, by simp [he], by simp, by rw [← he, hx, hm], by simpa using hn.symm⟩
    | none =>
      rw [scanEntries, hx] at hscan
      cases hrest : scanEntries h fs rest with
      | none => rw [hrest] at hscan; simp at hscan
      | some t =>
        rw [hrest] at hscan
        obtain ⟨e', m', n'⟩ := t
        obtain ⟨he, hm, hn⟩ : e' = e ∧ m' = m ∧ n' + 1 = n := by
          simpa using hscan
        subst he hm
        obtain ⟨l₁, l₂, hl, hinv, hv, hn'⟩ := scanEntries_eq_some hrest
        exact ⟨x :: l₁, l₂, by simp [hl],
          by intro y hy; rcases List.mem_cons.mp hy with rfl | hy; exact hx; exact hinv y hy,
          hv, by simp [hn'] at hn ⊢; omega⟩

/-- A failed scan means every candidate failed validation. -/
theorem scanEntries_eq_none {h : HashFn} {fs : FileSys} :
    ∀ {l : List Entry}, scanEntries h fs l = none →
      ∀ e ∈ l, validManifestOf h fs e = none
  | [], _ => by simp
  | x :: rest, hscan => by
    intro e he
    cases hx : validManifestOf h fs x with
    | some mx => rw [scanEntries, hx] at hscan; simp at hscan
    | none =>
      rw [scanEntries, hx] at hscan
      cases hrest : scanEntries h fs rest with
      | some t => rw [hrest] at hscan; simp at hscan
      | none =>
        rcases List.mem_cons.mp he with rfl | he
        · exact hx
        · exact scanEntries_eq_none hrest e he

/-- When every candidate fails validation the scan fails. -/
theorem scanEntries_none_of_all {h : HashFn} {fs : FileSys} :
    ∀ {l : List Entry}, (∀ e ∈ l, validManifestOf h fs e = none) →
      scanEntries h fs l = none
  | [], _ => rfl
  | x :: rest, hall => by
    have hx : validManifestOf h fs x = none := hall x (List.mem_cons_self x rest)
    have ih := scanEntries_none_of_all (fun y hy => hall y (List.mem_cons_of_mem x hy))
    simp [scanEntries, hx, ih]

/-- Scanning an invalid prefix followed by a valid candidate selects that
candidate and counts the prefix. -/
theorem scanEntries_append_valid {h : HashFn} {fs : FileSys} {e : Entry} {m : Manifest} :
    ∀ {l₁ : List Entry} (l₂ : List Entry),
      (∀ x ∈ l₁, validManifestOf h fs x = none) →
      validManifestOf h fs e = some m →
      scanEntries h fs (l₁ ++ e :: l₂) = some (e, m, l₁.length + 1)
  | [], l₂, _, hv => by simp [scanEntries, hv]
  | x :: rest, l₂, hinv, hv => by
    have hx : validManifestOf h fs x = none := hinv x (List.mem_cons_self x rest)
    have ih := @scanEntries_append_valid h fs e m rest l₂
      (fun y hy => hinv y (List.mem_cons_of_mem x hy)) hv
    simp [scanEntries, hx, ih]

/-- The sorted candidate list is in reverse chronological order. -/
theorem sorted_sortByCreatedDesc (l : List Entry) :
    List.Sorted entryGE (sortByCreatedDesc l) :=
  List.sorted_insertionSort entryGE l

/-- Sorting an already reverse-chronological list changes nothing. -/
theorem sortByCreatedDesc_eq_self {l : List Entry} (hl : List.Sorted entryGE l) :
    sortByCreatedDesc l = l :=
  hl.insertionSort_eq

/-! ## Helper lemmas: resume -/

/-- What a successful `resume` guarantees: the returned checkpoint fully
validates, it came from a stored candidate, no valid candidate is strictly
newer, and the rehydration cells and next stage ID are derived from it. -/
theorem resume_payload_spec {h : HashFn} {fs : FileSys} {entries : List Entry}
    {ok : ResumeOk} (hp : (resume h fs entries).payload = some ok) :
    deepValid h fs ok.checkpoint = true ∧
    (∃ e, e ∈ entries ∧ validManifestOf h fs e = some ok.checkpoint) ∧
    (∀ e ∈ entries, ∀ m, validManifestOf h fs e = some m →
      lexLe m.body.createdAt ok.checkpoint.body.createdAt = true) ∧
    ok.rehydrationCells = generateRehydrationCode ok.checkpoint.body ∧
    ok.nextStageId = computeNextStageId ok.checkpoint.body.stageId := by
  cases hscan : scanEntries h fs (sortByCreatedDesc entries) with
  | none => simp [resume, hscan] at hp
  | some t =>
    obtain ⟨e, m, n⟩ := t
    have hok : ok = { checkpoint := m, rehydrationCells := generateRehydrationCode m.body,
                      nextStageId := computeNextStageId m.body.stageId } := by
      simp [resume, hscan] at hp
      exact hp.symm
    subst hok
    obtain ⟨l₁, l₂, hsplit, hinv, hv, -⟩ := scanEntries_eq_some hscan
    have hmem : e ∈ entries := by
      have : e ∈ sortByCreatedDesc entries := by
        rw [hsplit]; exact List.mem_append_right _ (List.mem_cons_self e l₂)
      simpa [sortByCreatedDesc] using this
    refine ⟨(validManifestOf_some hv).2, ⟨e, hmem, hv⟩, ?_, rfl, rfl⟩
    intro e' he' m' hv'
    have he'sorted : e' ∈ sortByCreatedDesc entries := by
      simpa [sortByCreatedDesc] using he'
    have hsorted : List.Sorted entryGE (sortByCreatedDesc entries) :=
      sorted_sortByCreatedDesc entries
    rw [hsplit] at he'sorted hsorted
    rcases List.mem_append.mp he'sorted with h1 | h2
    · exact absurd hv' (by simp [hinv e' h1])
    · rcases List.mem_cons.mp h2 with rfl | h3
      · rw [hv'] at hv
        simp_all [lexLe, lexLeChars_refl]
      · have hrel : entryGE e e' :=
          (List.pairwise_cons.mp (List.pairwise_append.mp hsorted).2.1).1 e' h3
        have : lexLe (entryKey e') (entryKey e) = true := hrel
        rwa [entryKey_of_valid hv, entryKey_of_valid hv'] at this

/-- `resume` finds a checkpoint whenever any candidate validates: failures
are skipped, never fatal. -/
theorem resume_found_of_valid {h : HashFn} {fs : FileSys} {entries : List Entry}
    {e : Entry} {m : Manifest} (he : e ∈ entries)
    (hv : validManifestOf h fs e = some m) :
    (resume h fs entries).found = true := by
  cases hscan : scanEntries h fs (sortByCreatedDesc entries) with
  | some t => simp [resume, hscan]
  | none =>
    have : validManifestOf h fs e = none :=
      scanEntries_eq_none hscan e (by simpa [sortByCreatedDesc] using he)
    simp [this] at hv

/-- When every candidate fails validation, `resume` reports a successful
not-found result counting every candidate examined. -/
theorem resume_all_invalid {h : HashFn} {fs : FileSys} {entries : List Entry}
    (hall : ∀ e ∈ entries, validManifestOf h fs e = none) :
    resume h fs entries =
      { success := true, found := false, searchedCount := entries.length, payload := none } := by
  cases hscan : scanEntries h fs (sortByCreatedDesc entries) with
  | some t =>
    obtain ⟨e, m, n⟩ := t
    obtain ⟨l₁, l₂, hsplit, -, hv, -⟩ := scanEntries_eq_some hscan
    have hmem : e ∈ entries := by
      have : e ∈ sortByCreatedDesc entries := by
        rw [hsplit]; exact List.mem_append_right _ (List.mem_cons_self e l₂)
      simpa [sortByCreatedDesc] using this
    rw [hall e hmem] at hv
    simp at hv
  | none =>
    have hscan' : scanEntries h fs (List.insertionSort entryGE entries) = none := by
      simpa [sortByCreatedDesc] using hscan
    simp [resume, sortByCreatedDesc, hscan']

/-! ## Helper lemmas: schema validation -/

/-- `if c then [] else [err]` is empty exactly when `c` holds. -/
theorem ite_nil_iff_pos {c : Prop} [Decidable c] {err : String} :
    (if c then ([] : List String) else [err]) = [] ↔ c := by
  split_ifs with hc <;> simp [hc]

/-- `if c then [err] else []` is empty exactly when `c` fails. -/
theorem ite_nil_iff_neg {c : Prop} [Decidable c] {err : String} :
    (if c then [err] else ([] : List String)) = [] ↔ ¬c := by
  split_ifs with hc <;> simp [hc]

/-- One artifact entry produces no errors exactly when its hash field is 64
hex characters and its size is nonnegative. -/
theorem artifactErrors_eq_nil (a : ArtifactEntry) :
    artifactErrors a = [] ↔ (isSha256Hex a.sha256 = true ∧ 0 ≤ a.sizeBytes) := by
  unfold artifactErrors
  rw [List.append_eq_nil, ite_nil_iff_pos, ite_nil_iff_neg, Int.not_lt]

/-- The emergency-status check passes exactly when `emergency` status
implies a present reason. -/
theorem emergencyCheck_iff (st : CheckpointStatus) (r : Option EmergencyReason) :
    (¬((st = CheckpointStatus.emergency && r.isNone) = true)) ↔
      (st = .emergency → r.isSome = true) := by
  cases st <;> cases r <;> simp

/-- The error list of `validateCheckpointManifest` is empty exactly when
every field constraint holds. -/
theorem validate_eq_nil_iff (m : Manifest) :
    validateCheckpointManifest m = [] ↔
      (isValidTimestamp m.body.createdAt = true ∧ 0 ≤ m.body.executionCount ∧
       isValidStageId m.body.stageId = true ∧
       (∀ a ∈ m.body.artifacts, isSha256Hex a.sha256 = true ∧ 0 ≤ a.sizeBytes) ∧
       isSha256Hex m.manifestSha256 = true ∧
       (m.body.status = .emergency → m.body.reason.isSome = true)) := by
  unfold validateCheckpointManifest
  rw [List.append_eq_nil, List.append_eq_nil, List.append_eq_nil, List.append_eq_nil,
    List.append_eq_nil, ite_nil_iff_pos, ite_nil_iff_neg, Int.not_lt, ite_nil_iff_pos,
    List.flatMap_eq_nil_iff, ite_nil_iff_pos, ite_nil_iff_neg, emergencyCheck_iff]
  constructor
  · rintro ⟨⟨⟨⟨⟨h1, h2⟩, h3⟩, h4⟩, h5⟩, h6⟩
    exact ⟨h1, h2, h3, fun a ha => (artifactErrors_eq_nil a).mp (h4 a ha), h5, h6⟩
  · rintro ⟨h1, h2, h3, h4, h5, h6⟩
    exact ⟨⟨⟨⟨⟨h1, h2⟩, h3⟩, fun a ha => (artifactErrors_eq_nil a).mpr (h4 a ha)⟩, h5⟩, h6⟩

/-! ## Helper lemmas: rehydration generator -/

/-- A parenthesis in the left part survives concatenation. -/
theorem paren_in_append_left {x y : String} (hx : '(' ∈ x.data) :
    '(' ∈ (x ++ y).data := by
  rw [String.data_append]
  exact List.mem_append_left _ hx

/-- A parenthesis in the right part survives concatenation. -/
theorem paren_in_append_right {x y : String} (hy : '(' ∈ y.data) :
    '(' ∈ (x ++ y).data := by
  rw [String.data_append]
  exact List.mem_append_right _ hy

/-- Every load line contains an opening parenthesis (import statements do
not, which separates the two syntactic classes). -/
theorem paren_mem_artifactLoadLines {a : ArtifactEntry} {s : String}
    (hs : s ∈ artifactLoadLines a) : '(' ∈ s.data := by
  unfold artifactLoadLines at hs
  split at hs <;>
    simp only [List.mem_singleton, List.mem_cons, List.mem_nil_iff, or_false] at hs
  · subst hs
    exact paren_in_append_left (paren_in_append_left (paren_in_append_right (by decide)))
  · subst hs
    exact paren_in_append_left (paren_in_append_left (paren_in_append_right (by decide)))
  · rcases hs with rfl | rfl
    · exact paren_in_append_left (paren_in_append_left (by decide))
    · exact paren_in_append_right (by decide)
  · subst hs
    exact paren_in_append_left (paren_in_append_left (paren_in_append_right (by decide)))
  · rcases hs with rfl | rfl
    · exact paren_in_append_left (paren_in_append_left (by decide))
    · exact paren_in_append_right (by decide)
  · subst hs
    exact paren_in_append_left (by decide)

/-- A parenthesis-free string is not counted among the load lines. -/
theorem count_loadLines_eq_zero {s : String} (hs : '(' ∉ s.data)
    (arts : List ArtifactEntry) :
    (arts.flatMap artifactLoadLines).count s = 0 := by
  refine List.count_eq_zero.mpr (fun hmem => ?_)
  obtain ⟨a, -, hline⟩ := List.mem_flatMap.mp hmem
  exact hs (paren_mem_artifactLoadLines hline)

/-- Every seed line is one of the two seed imports or contains a
parenthesis. -/
theorem mem_seedLines {seeds : List (String × Int)} {s : String}
    (hs : s ∈ seedLines seeds) :
    s = "import random" ∨ s = "import numpy as np" ∨ '(' ∈ s.data := by
  unfold seedLines at hs
  rcases List.mem_append.mp hs with h1 | h2
  · cases hr : seeds.lookup "random" with
    | none => rw [hr] at h1; simp at h1
    | some n =>
      rw [hr] at h1
      rcases (by simpa using h1 : s = "import random" ∨
          s = "random.seed(" ++ toString n ++ ")") with rfl | rfl
      · exact Or.inl rfl
      · exact Or.inr (Or.inr (paren_in_append_left (paren_in_append_left (by decide))))
  · cases hr : seeds.lookup "numpy" with
    | none => rw [hr] at h2; simp at h2
    | some n =>
      rw [hr] at h2
      rcases (by simpa using h2 : s = "import numpy as np" ∨
          s = "np.random.seed(" ++ toString n ++ ")") with rfl | rfl
      · exact Or.inr (Or.inl rfl)
      · exact Or.inr (Or.inr (paren_in_append_left (paren_in_append_left (by decide))))

/-- A parenthesis-free string other than the two seed imports is not
counted among the seed lines. -/
theorem count_seedLines_eq_zero {s : String} (hp : '(' ∉ s.data)
    (h1 : s ≠ "import random") (h2 : s ≠ "import numpy as np")
    (seeds : List (String × Int)) :
    (seedLines seeds).count s = 0 := by
  refine List.count_eq_zero.mpr (fun hmem => ?_)
  rcases mem_seedLines hmem with rfl | rfl | hpar
  · exact h1 rfl
  · exact h2 rfl
  · exact hp hpar

/-- The marker line contains a parenthesis, so a parenthesis-free string is
not counted in it. -/
theorem count_markerLine_eq_zero {s : String} (hp : '(' ∉ s.data)
    (cid : String) : ([rehydratedMarkerLine cid]).count s = 0 := by
  refine List.count_eq_zero.mpr (fun hmem => ?_)
  rcases List.mem_singleton.mp hmem with rfl
  apply hp
  unfold rehydratedMarkerLine
  exact paren_in_append_left (paren_in_append_left (by decide))

/-! ## Helper lemmas: escalation -/

/-- The terminate-then-kill tail of the escalation never exceeds the
guaranteed bound. -/
theorem escalateTerm_le (g : Nat) (st : StageBehavior) :
    (escalate.escalateTerm g st).2 ≤ calculateMaxEscalationTime g := by
  unfold escalate.escalateTerm calculateMaxEscalationTime
  cases st.termResponse with
  | none => simp
  | some d =>
    by_cases hd : d ≤ calculateSigtermGrace g
    · simp only [hd, if_pos]
      omega
    · simp only [hd, if_neg, not_false_eq_true]
      omega

/-! ## Helper lemmas: prune -/

/-- A successful selection decomposes the sorted candidate list into an
invalid prefix, the selected entry, and a tail. -/
theorem firstValid_decomp {h : HashFn} {fs : FileSys} {entries : List Entry}
    {sel : Entry} (hsel : firstValid h fs entries = some sel) :
    ∃ m l₁ l₂, sortByCreatedDesc entries = l₁ ++ sel :: l₂ ∧
      (∀ x ∈ l₁, validManifestOf h fs x = none) ∧
      validManifestOf h fs sel = some m := by
  unfold firstValid at hsel
  cases hscan : scanEntries h fs (sortByCreatedDesc entries) with
  | none => rw [hscan] at hsel; simp at hsel
  | some t =>
    obtain ⟨e, m, n⟩ := t
    rw [hscan] at hsel
    obtain rfl : e = sel := by simpa using hsel
    obtain ⟨l₁, l₂, hsplit, hinv, hv, -⟩ := scanEntries_eq_some hscan
    exact ⟨m, l₁, l₂, hsplit, hinv, hv⟩

/-- Every entry `prune` deletes lies beyond the `keepCount` most recent
candidates. -/
theorem prune_deleted_subset (h : HashFn) (fs : FileSys) (k : Nat) (entries : List Entry) :
    ∀ e ∈ (prune h fs k entries).deleted, e ∈ (sortByCreatedDesc entries).drop k := by
  intro e he
  cases hsel : firstValid h fs entries with
  | none =>
    simp [prune, hsel] at he
    exact he
  | some sel =>
    simp [prune, hsel] at he
    exact he.1

/-- `prune` deletes in ascending `createdAt` order — oldest first. -/
theorem prune_deleted_oldest_first (h : HashFn) (fs : FileSys) (k : Nat)
    (entries : List Entry) :
    List.Pairwise (fun a b => lexLe (entryKey a) (entryKey b) = true)
      (prune h fs k entries).deleted := by
  have hdrop : List.Pairwise entryGE ((sortByCreatedDesc entries).drop k) :=
    (sorted_sortByCreatedDesc entries).sublist (List.drop_sublist k _)
  cases hsel : firstValid h fs entries with
  | none =>
    simp only [prune, hsel]
    exact List.pairwise_reverse.mpr hdrop
  | some sel =>
    simp only [prune, hsel]
    exact List.pairwise_reverse.mpr (hdrop.sublist (List.filter_sublist _))

/-- `prune` never deletes the checkpoint `resume` would currently
select. -/
theorem prune_preserves_selection (h : HashFn) (fs : FileSys) (k : Nat)
    (entries : List Entry) :
    ∀ e, firstValid h fs entries = some e → e ∉ (prune h fs k entries).deleted := by
  intro e hsel he
  simp only [prune, hsel] at he
  rcases List.mem_filter.mp (List.mem_reverse.mp he) with ⟨-, hne⟩
  simp at hne

/-- Every kept entry is among the `keepCount` most recent or is the
selected checkpoint. -/
theorem prune_kept_mem (h : HashFn) (fs : FileSys) (k : Nat) (entries : List Entry) :
    ∀ e ∈ (prune h fs k entries).kept,
      e ∈ (sortByCreatedDesc entries).take k ∨ firstValid h fs entries = some e := by
  intro e he
  cases hsel : firstValid h fs entries with
  | none =>
    simp only [prune, hsel] at he
    exact Or.inl he
  | some sel =>
    simp only [prune, hsel] at he
    by_cases hmem : sel ∈ (sortByCreatedDesc entries).take k
    · rw [if_pos hmem] at he
      exact Or.inl he
    · rw [if_neg hmem] at he
      rcases List.mem_append.mp he with h1 | h2
      · exact Or.inl h1
      · rcases List.mem_singleton.mp h2 with rfl
        exact Or.inr rfl

/-- Pruning the kept list again deletes nothing and keeps everything:
`prune` is idempotent. -/
theorem prune_idempotent (h : HashFn) (fs : FileSys) (k : Nat) (entries : List Entry) :
    prune h fs k (prune h fs k entries).kept =
      { kept := (prune h fs k entries).kept, deleted := [] } := by
  have hsortedS : List.Pairwise entryGE (sortByCreatedDesc entries) :=
    sorted_sortByCreatedDesc entries
  have hbase_sorted : List.Pairwise entryGE ((sortByCreatedDesc entries).take k) :=
    hsortedS.sublist (List.take_sublist k _)
  cases hsel : firstValid h fs entries with
  | none =>
    -- nothing validates: the kept list is the k most recent, all invalid
    have hscan : scanEntries h fs (sortByCreatedDesc entries) = none := by
      unfold firstValid at hsel
      exact Option.map_eq_none.mp hsel
    have hallS : ∀ e ∈ sortByCreatedDesc entries, validManifestOf h fs e = none :=
      scanEntries_eq_none hscan
    have hkept : (prune h fs k entries).kept = (sortByCreatedDesc entries).take k := by
      simp [prune, hsel]
    rw [hkept]
    have hsort2 : sortByCreatedDesc ((sortByCreatedDesc entries).take k) =
        (sortByCreatedDesc entries).take k :=
      sortByCreatedDesc_eq_self hbase_sorted
    have hsel2 : firstValid h fs ((sortByCreatedDesc entries).take k) = none := by
      unfold firstValid
      rw [hsort2, scanEntries_none_of_all
        (fun e he => hallS e (List.mem_of_mem_take he))]
      rfl
    simp only [prune, hsel2, hsort2]
    rw [List.take_take, Nat.min_self,
      List.drop_eq_nil_iff.mpr (by simp), List.reverse_nil]
  | some sel =>
    obtain ⟨m, l₁, l₂, hsplit, hinv, hv⟩ := firstValid_decomp hsel
    by_cases hmem : sel ∈ (sortByCreatedDesc entries).take k
    · -- the selection is already among the k most recent
      have hkept : (prune h fs k entries).kept = (sortByCreatedDesc entries).take k := by
        simp [prune, hsel, hmem]
      rw [hkept]
      have hsort2 : sortByCreatedDesc ((sortByCreatedDesc entries).take k) =
          (sortByCreatedDesc entries).take k :=
        sortByCreatedDesc_eq_self hbase_sorted
      -- k must reach past the invalid prefix, so the base decomposes the same way
      have hk : l₁.length < k := by
        by_contra hk
        push_neg at hk
        have : (sortByCreatedDesc entries).take k = l₁.take k := by
          rw [hsplit, List.take_append_eq_append_take,
            Nat.sub_eq_zero_of_le hk, List.take_zero, List.append_nil]
        rw [this] at hmem
        have := hinv sel (List.mem_of_mem_take hmem)
        rw [this] at hv
        cases hv
      have hbase_split : (sortByCreatedDesc entries).take k =
          l₁ ++ sel :: l₂.take (k - l₁.length - 1) := by
        rw [hsplit, List.take_append_eq_append_take,
          List.take_of_length_le (by omega)]
        congr 1
        have hpos : k - l₁.length = (k - l₁.length - 1) + 1 := by omega
        rw [hpos]
        rfl
      have hsel2 : firstValid h fs ((sortByCreatedDesc entries).take k) = some sel := by
        unfold firstValid
        rw [hsort2, hbase_split, scanEntries_append_valid _ hinv hv]
        rfl
      have hmem2 : sel ∈ ((sortByCreatedDesc entries).take k).take k := by
        rwa [List.take_take, Nat.min_self]
      simp only [prune, hsel2, hsort2, if_pos hmem2]
      rw [List.take_take, Nat.min_self,
        List.drop_eq_nil_iff.mpr (by simp)]
      simp
    · -- the selection sits beyond the k most recent and is appended
      have hkept : (prune h fs k entries).kept =
          (sortByCreatedDesc entries).take k ++ [sel] := by
        simp [prune, hsel, hmem]
      rw [hkept]
      -- here the whole base lies in the invalid prefix
      have hk : k ≤ l₁.length := by
        by_contra hk
        push_neg at hk
        apply hmem
        rw [hsplit, List.take_append_eq_append_take]
        refine List.mem_append_right _ ?_
        have hpos : k - l₁.length = (k - l₁.length - 1) + 1 := by omega
        rw [hpos]
        exact List.mem_cons_self _ _
      have hbase_eq : (sortByCreatedDesc entries).take k = l₁.take k := by
        rw [hsplit, List.take_append_eq_append_take,
          Nat.sub_eq_zero_of_le hk, List.take_zero, List.append_nil]
      have hbase_inv : ∀ x ∈ (sortByCreatedDesc entries).take k,
          validManifestOf h fs x = none := by
        intro x hx
        rw [hbase_eq] at hx
        exact hinv x (List.mem_of_mem_take hx)
      have hsel_in_drop : sel ∈ (sortByCreatedDesc entries).drop k := by
        rw [hsplit, List.drop_append_eq_append_drop,
          Nat.sub_eq_zero_of_le hk, List.drop_zero]
        exact List.mem_append_right _ (List.mem_cons_self _ _)
      have hcross : ∀ b ∈ (sortByCreatedDesc entries).take k, entryGE b sel := by
        intro b hb
        have := hsortedS
        rw [← List.take_append_drop k (sortByCreatedDesc entries)] at this
        exact (List.pairwise_append.mp this).2.2 b hb sel hsel_in_drop
      have hkept_sorted : List.Pairwise entryGE
          ((sortByCreatedDesc entries).take k ++ [sel]) :=
        List.pairwise_append.mpr ⟨hbase_sorted, List.pairwise_singleton _ _,
          fun a ha b hb => by rcases List.mem_singleton.mp hb with rfl; exact hcross a ha⟩
      have hsort2 : sortByCreatedDesc ((sortByCreatedDesc entries).take k ++ [sel]) =
          (sortByCreatedDesc entries).take k ++ [sel] :=
        sortByCreatedDesc_eq_self hkept_sorted
      have hsel2 : firstValid h fs ((sortByCreatedDesc entries).take k ++ [sel]) =
          some sel := by
        unfold firstValid
        rw [hsort2, scanEntries_append_valid _ hbase_inv hv]
        rfl
      have hlenS : k < (sortByCreatedDesc entries).length := by
        rw [hsplit, List.length_append, List.length_cons]
        omega
      have hbase_len : ((sortByCreatedDesc entries).take k).length = k := by
        rw [List.length_take]
        omega
      have htake2 : ((sortByCreatedDesc entries).take k ++ [sel]).take k =
          (sortByCreatedDesc entries).take k := by
        rw [List.take_append_eq_append_take, List.take_of_length_le (by omega),
          hbase_len, Nat.sub_self, List.take_zero, List.append_nil]
      have hdrop2 : ((sortByCreatedDesc entries).take k ++ [sel]).drop k = [sel] := by
        rw [List.drop_append_eq_append_drop,
          List.drop_eq_nil_iff.mpr (by omega), hbase_len, Nat.sub_self,
          List.drop_zero, List.nil_append]
      have hmem2 : sel ∉ ((sortByCreatedDesc entries).take k ++ [sel]).take k := by
        rw [htake2]
        exact hmem
      simp only [prune, hsel2, hsort2, if_neg hmem2]
      rw [htake2, hdrop2]
      simp

/-! ## Helper lemmas: marker parser -/

/-- A parsed marker's `valid` flag records taxonomy membership of its
type. -/
theorem parseMarkerLine_valid {l : String} {mk : Marker}
    (hm : parseMarkerLine l = some mk) : mk.valid = taxonomyHas mk.type := by
  unfold parseMarkerLine at hm
  split at hm
  · split at hm
    · simp at hm
    · split at hm
      · simp at hm
      · split at hm
        · cases hm
          rfl
        · simp at hm
  · simp at hm

/-- The valid and invalid markers together count the whole list. -/
theorem filter_valid_split : ∀ l : List Marker,
    (l.filter (fun mk => mk.valid)).length +
      (l.filter (fun mk => !mk.valid)).length = l.length
  | [] => rfl
  | mk :: rest => by
    have ih := filter_valid_split rest
    by_cases hv : mk.valid = true <;> simp [List.filter_cons, hv] <;> omega

/-! ## Concrete fixtures for witnesses -/

namespace Demo

/-- A stand-in hash function for concrete evaluations: constantly 64 `a`s
(a well-formed lowercase-hex digest, like SHA-256's). -/
def hashA : HashFn := fun _ => String.mk (List.replicate 64 'a')

/-- A stand-in hash function that differs on inputs of different length. -/
def hashLen : HashFn := fun s => toString s.length

/-- 64 zeros: a well-formed hex string that `hashA` never returns. -/
def zeros64 : String := String.mk (List.replicate 64 '0')

/-- Fixture notebook reference. -/
def notebook0 : NotebookRef := { path := "notebooks/demo.ipynb", checkpointCellId := "cell-1" }

/-- Fixture Python environment. -/
def env0 : PythonEnv :=
  { pythonPath := "/usr/bin/python3", packages := ["pandas==2.0.0"], platform := "linux",
    randomSeeds := [] }

/-- Fixture manifest body. -/
def mkBody (cid stage ts : String) (arts : List ArtifactEntry) : ManifestBody :=
  { checkpointId := cid, researchSessionID := "ses_demo", reportTitle := "demo",
    runId := "run-001", stageId := stage, createdAt := ts, executionCount := 5,
    status := .saved, reason := none, notebook := notebook0, pythonEnv := env0,
    artifacts := arts, rehydration := { mode := .artifacts_only, rehydrationCellSource := [] } }

/-- Oldest checkpoint body (C1 in the scenario). -/
def body1 : ManifestBody := mkBody "ckpt-001" "S01_load_data" "2026-01-01T10:00:00Z" []

/-- Middle checkpoint body (C2 in the scenario). -/
def body2 : ManifestBody := mkBody "ckpt-002" "S02_eda_analysis" "2026-01-01T12:00:00Z" []

/-- Newest checkpoint body (C3 in the scenario, stored with a bad seal). -/
def body3 : ManifestBody := mkBody "ckpt-003" "S03_train_model" "2026-01-01T14:00:00Z" []

/-- Body mutated from `body1` (one extra byte in `checkpointId`). -/
def body1mut : ManifestBody := mkBody "ckpt-001X" "S01_load_data" "2026-01-01T10:00:00Z" []

/-- A body at stage `S05_save_results`. -/
def body5 : ManifestBody := mkBody "ckpt-005" "S05_save_results" "2026-01-01T14:00:00Z" []

/-- Properly sealed entry for `body1`. -/
def entry1 : Entry :=
  { payload := .manifest { body := body1, manifestSha256 := hashA (serializeBody body1) } }

/-- Properly sealed entry for `body2`. -/
def entry2 : Entry :=
  { payload := .manifest { body := body2, manifestSha256 := hashA (serializeBody body2) } }

/-- Entry for `body3` with a wrong seal (tampered checkpoint). -/
def entry3bad : Entry :=
  { payload := .manifest { body := body3, manifestSha256 := zeros64 } }

/-- Properly sealed entry for `body5`. -/
def entry5 : Entry :=
  { payload := .manifest { body := body5, manifestSha256 := hashA (serializeBody body5) } }

/-- The three-checkpoint scenario store: C1 < C2 < C3 by creation time,
C3 tampered. -/
def entries3 : List Entry := [entry1, entry2, entry3bad]

/-- Fixture arguments for `save`. -/
def saveArgs0 : SaveArgs :=
  { reportTitle := "demo", runId := "run-001", checkpointId := "ckpt-s",
    researchSessionID := "ses_demo", stageId := "S02_eda_analysis",
    createdAt := "2026-01-02T10:30:00Z", executionCount := 5, notebook := notebook0,
    pythonEnv := env0, artifacts := [], rehydrationMode := .artifacts_only }

/-- The body `save` builds from `saveArgs0`. -/
def savedBody : ManifestBody := bodyOfSave saveArgs0

/-- The manifest `save` writes for `saveArgs0` under `hashA`. -/
def savedManifest : Manifest :=
  { body := savedBody, manifestSha256 := hashA (serializeBody savedBody) }

/-- The entry `save` produces for `saveArgs0` under `hashA`. -/
def savedEntry : Entry := { payload := .manifest savedManifest }

/-- A manifest with a negative `executionCount`. -/
def badCountManifest : Manifest :=
  { body := { savedBody with executionCount := -5 },
    manifestSha256 := hashA (serializeBody savedBody) }

/-- The emergency checkpoint fixture. -/
def emergencyEntry : Entry :=
  emergency hashA "demo" "run-001" "ckpt-em" "ses_demo" "S02_eda_analysis" .timeout
    "2026-01-02T10:00:00Z" notebook0 env0 0

/-- A parquet artifact fixture. -/
def parquetArtifact : ArtifactEntry :=
  { relativePath := "reports/demo/data.parquet"
    sha256 := String.mk (List.replicate 64 'a')
    sizeBytes := 4 }

/-- A body carrying one parquet artifact. -/
def artifactBody : ManifestBody :=
  mkBody "ckpt-art" "S03_train_model" "2026-01-01T13:00:00Z" [parquetArtifact]

/-- A validated manifest carrying one parquet artifact. -/
def artifactManifest : Manifest :=
  { body := artifactBody, manifestSha256 := hashA (serializeBody artifactBody) }

end Demo

/-! ## Claim theorems -/

/-- C1: `resume` scans candidates in reverse chronological order of
`createdAt` and returns the newest candidate that fully validates (seal,
JSON parse, every artifact's hash and size); every failing candidate is
skipped and the scan continues, so a checkpoint returned by `resume` fully
validates, comes from the store, and no valid candidate is strictly newer —
and whenever any candidate validates, `resume` finds one (with checkpoints
C1 < C2 < C3 where C3 is corrupt, it returns C2: see the witness). -/
theorem resume_selects_newest_valid_checkpoint :
    (∀ (h : HashFn) (fs : FileSys) (entries : List Entry) (ok : ResumeOk),
      (resume h fs entries).payload = some ok →
      deepValid h fs ok.checkpoint = true ∧
      (∃ e, e ∈ entries ∧ validManifestOf h fs e = some ok.checkpoint) ∧
      (∀ e ∈ entries, ∀ m, validManifestOf h fs e = some m →
        lexLe m.body.createdAt ok.checkpoint.body.createdAt = true)) ∧
    (∀ (h : HashFn) (fs : FileSys) (entries : List Entry) (e : Entry) (m : Manifest),
      e ∈ entries → validManifestOf h fs e = some m →
      (resume h fs entries).found = true) := by
  constructor
  · intro h fs entries ok hp
    obtain ⟨ha, hb, hc, -, -⟩ := resume_payload_spec hp
    exact ⟨ha, hb, hc⟩
  · intro h fs entries e m he hv
    exact resume_found_of_valid he hv

/-- C1 witness: the three-checkpoint scenario — C1 < C2 < C3 by creation
time, C3 stored with a bad seal — where `resume` returns C2. -/
theorem resume_selects_newest_valid_checkpoint_witness :
    ((resume Demo.hashA [] Demo.entries3).payload.map
      (fun ok => ok.checkpoint.body.checkpointId) = some "ckpt-002") ∧
    (resume Demo.hashA [] Demo.entries3).found = true := by
  refine ⟨by decide, ?_⟩
  exact resume_selects_newest_valid_checkpoint.2 Demo.hashA [] Demo.entries3 Demo.entry2
    { body := Demo.body2, manifestSha256 := Demo.hashA (serializeBody Demo.body2) }
    (by decide) (by decide)

/-- C2: a manifest produced by `save` stores as `manifestSha256` exactly the
hash of its serialized body with that field excluded, so recomputing the
seal reproduces it; storing any different seal value — in particular the
seal of the unmutated body on a mutated body whose hash differs — fails the
seal check, fails deep validation under every filesystem, and is never the
checkpoint returned by `resume`. -/
theorem save_seal_integrity :
    (∀ (h : HashFn) (fs : FileSys) (args : SaveArgs) (e : Entry) (m : Manifest),
      save h fs args = .ok e → e.payload = .manifest m →
      m.manifestSha256 = h (serializeBody m.body) ∧ sealOk h m = true) ∧
    (∀ (h : HashFn) (body : ManifestBody) (sealv : String),
      h (serializeBody body) ≠ sealv →
      sealOk h { body := body, manifestSha256 := sealv } = false ∧
      (∀ fs, deepValid h fs { body := body, manifestSha256 := sealv } = false) ∧
      (∀ (fs : FileSys) (entries : List Entry) (ok : ResumeOk),
        (resume h fs entries).payload = some ok →
        ok.checkpoint ≠ { body := body, manifestSha256 := sealv })) := by
  constructor
  · intro h fs args e m hsave hp
    unfold save at hsave
    split at hsave
    · injection hsave with he
      subst he
      have hm : savedManifestOf h args = m := by
        simpa [savedEntryOf] using hp
      subst hm
      exact ⟨rfl, by simp [sealOk, savedManifestOf]⟩
    · simp at hsave
  · intro h body sealv hne
    have hfalse : sealOk h { body := body, manifestSha256 := sealv } = false := by
      simp [sealOk]
      exact fun hcon => absurd hcon.symm hne
    refine ⟨hfalse, fun fs => by simp [deepValid, hfalse], ?_⟩
    intro fs entries ok hp hcon
    have hvalid := (resume_payload_spec hp).1
    rw [hcon] at hvalid
    simp [deepValid, hfalse] at hvalid

/-- C2 witness: the manifest `save` produces under `hashA` passes the seal
check, and a body mutated by one byte — whose recomputed hash under
`hashLen` differs from the stored seal — fails it. -/
theorem save_seal_integrity_witness :
    sealOk Demo.hashA Demo.savedManifest = true ∧
    sealOk Demo.hashLen
      { body := Demo.body1mut, manifestSha256 := Demo.hashLen (serializeBody Demo.body1) } = false := by
  constructor
  · exact (save_seal_integrity.1 Demo.hashA [] Demo.saveArgs0 Demo.savedEntry
      Demo.savedManifest rfl rfl).2
  · exact (save_seal_integrity.2 Demo.hashLen Demo.body1mut
      (Demo.hashLen (serializeBody Demo.body1)) (by decide)).1

/-- C3: the escalation procedure waits up to `G` ms after the interrupt
signal, up to `max(G/2, 1000)` ms after the terminate signal, then
force-kills, so elapsed time never exceeds `G + max(G/2, 1000) + 1000` ms
however unresponsive the stage is (a fully unresponsive stage hits the bound
exactly, terminated by the kill signal); the default grace period is
5000 ms. -/
theorem interrupt_escalation_bound :
    ESCALATION_DEFAULTS.gracePeriodMs = 5000 ∧
    (∀ g, calculateSigtermGrace g = max (g / 2) 1000) ∧
    (∀ g, calculateMaxEscalationTime g = g + max (g / 2) 1000 + 1000) ∧
    (∀ (g : Nat) (st : StageBehavior),
      (escalate g st).2 ≤ g + max (g / 2) 1000 + 1000) ∧
    (∀ g : Nat,
      escalate g unresponsiveStage = (.sigkill, g + max (g / 2) 1000 + 1000)) := by
  refine ⟨rfl, fun g => rfl, fun g => rfl, ?_, fun g => rfl⟩
  intro g st
  have hterm := escalateTerm_le g st
  unfold calculateMaxEscalationTime calculateSigtermGrace at hterm
  unfold escalate
  cases hoi : st.intResponse with
  | none => exact hterm
  | some d =>
    by_cases hd : d ≤ g
    · simp only [hd, if_pos]
      omega
    · simp only [hd, if_neg, not_false_eq_true]
      exact hterm

/-- C4: on success `resume` returns `nextStageId` computed by incrementing
the two-digit sequence number of the checkpoint's `stageId` and appending an
underscore: for a stage ID starting `S` + two digits the result is `S`,
the incremented zero-padded number, and `_`; concretely `S02_eda_analysis`
yields `S03_`, `S05_save_results` yields `S06_`, and `S09_final_step`
yields `S10_`. -/
theorem resume_next_stage_id :
    (∀ (h : HashFn) (fs : FileSys) (entries : List Entry) (ok : ResumeOk),
      (resume h fs entries).payload = some ok →
      ok.nextStageId = computeNextStageId ok.checkpoint.body.stageId) ∧
    (∀ (s : String) (d1 d2 : Char) (rest : List Char),
      s.toList = 'S' :: d1 :: d2 :: rest →
      isDigitAscii d1 = true → isDigitAscii d2 = true →
      computeNextStageId s =
        some ("S" ++ pad2 ((d1.toNat - '0'.toNat) * 10 + (d2.toNat - '0'.toNat) + 1) ++ "_")) ∧
    computeNextStageId "S02_eda_analysis" = some "S03_" ∧
    computeNextStageId "S05_save_results" = some "S06_" ∧
    computeNextStageId "S09_final_step" = some "S10_" := by
  refine ⟨?_, ?_, by decide, by decide, by decide⟩
  · intro h fs entries ok hp
    exact (resume_payload_spec hp).2.2.2.2
  · intro s d1 d2 rest hs hd1 hd2
    unfold computeNextStageId
    rw [hs]
    simp [hd1, hd2]

/-- C4 witness: a store holding a valid checkpoint at stage
`S05_save_results`, for which `resume` reports `nextStageId = "S06_"`, and
the stage-ID arithmetic applied at that input. -/
theorem resume_next_stage_id_witness :
    computeNextStageId "S05_save_results" =
      some ("S" ++ pad2 (('0'.toNat - '0'.toNat) * 10 + ('5'.toNat - '0'.toNat) + 1) ++ "_") ∧
    ((resume Demo.hashA [] [Demo.entry5]).payload.map
      (fun ok => ok.nextStageId) = some (some "S06_")) := by
  refine ⟨?_, by decide⟩
  exact resume_next_stage_id.2.1 "S05_save_results" '0' '5' "_save_results".toList
    (by decide) (by decide) (by decide)

/-- C5: schema validation accepts a candidate exactly when every field
constraint holds; a malformed `createdAt`, a negative `executionCount`, a
SHA-256 field (artifact or seal) that is not 64 hex characters, a stage ID
violating the naming pattern, or `emergency` status without a reason each
force a nonempty error result. Validation is a pure function of the
candidate. -/
theorem validate_rejects_malformed_manifests :
    ∀ m : Manifest,
      (validateCheckpointManifest m = [] ↔
        (isValidTimestamp m.body.createdAt = true ∧ 0 ≤ m.body.executionCount ∧
         isValidStageId m.body.stageId = true ∧
         (∀ a ∈ m.body.artifacts, isSha256Hex a.sha256 = true ∧ 0 ≤ a.sizeBytes) ∧
         isSha256Hex m.manifestSha256 = true ∧
         (m.body.status = .emergency → m.body.reason.isSome = true))) ∧
      (isValidTimestamp m.body.createdAt = false → validateCheckpointManifest m ≠ []) ∧
      (m.body.executionCount < 0 → validateCheckpointManifest m ≠ []) ∧
      (isSha256Hex m.manifestSha256 = false → validateCheckpointManifest m ≠ []) ∧
      (∀ a ∈ m.body.artifacts, isSha256Hex a.sha256 = false →
        validateCheckpointManifest m ≠ []) ∧
      (isValidStageId m.body.stageId = false → validateCheckpointManifest m ≠ []) ∧
      (m.body.status = .emergency → m.body.reason = none →
        validateCheckpointManifest m ≠ []) := by
  intro m
  refine ⟨validate_eq_nil_iff m, ?_, ?_, ?_, ?_, ?_, ?_⟩
  · intro hbad hnil
    have := ((validate_eq_nil_iff m).mp hnil).1
    simp [hbad] at this
  · intro hbad hnil
    have := ((validate_eq_nil_iff m).mp hnil).2.1
    omega
  · intro hbad hnil
    have := ((validate_eq_nil_iff m).mp hnil).2.2.2.2.1
    simp [hbad] at this
  · intro a ha hbad hnil
    have := (((validate_eq_nil_iff m).mp hnil).2.2.2.1 a ha).1
    simp [hbad] at this
  · intro hbad hnil
    have := ((validate_eq_nil_iff m).mp hnil).2.2.1
    simp [hbad] at this
  · intro hst hr hnil
    have := ((validate_eq_nil_iff m).mp hnil).2.2.2.2.2 hst
    simp [hr] at this

/-- C5 witness: the saved fixture manifest is accepted, and the same
manifest with `executionCount := -5` is rejected. -/
theorem validate_rejects_malformed_manifests_witness :
    validateCheckpointManifest Demo.savedManifest = [] ∧
    validateCheckpointManifest Demo.badCountManifest ≠ [] := by
  constructor
  · exact (validate_rejects_malformed_manifests Demo.savedManifest).1.mpr
      ⟨by decide, by decide, by decide, by decide, by decide, by decide⟩
  · exact (validate_rejects_malformed_manifests Demo.badCountManifest).2.2.1 (by decide)

/-- C6: `emergency` performs no artifact existence or hash checks — it
always produces a manifest with status `interrupted` carrying the given
reason and no artifact entries, whatever the filesystem contains — and
(for a hash producing well-formed digests, a well-formed stage ID and
timestamp, and a nonnegative execution count) the checkpoint it writes
fully validates and is found and returned by `resume`. -/
theorem emergency_checkpoint_resumable :
    ∀ (h : HashFn) (rT rI cI sI stId : String) (reason : EmergencyReason)
      (ts : String) (nb : NotebookRef) (env : PythonEnv) (ec : Int) (fs : FileSys),
      (∃ m, (emergency h rT rI cI sI stId reason ts nb env ec).payload = .manifest m ∧
        m.body.status = .interrupted ∧ m.body.reason = some reason ∧
        m.body.artifacts = []) ∧
      ((∀ s, isSha256Hex (h s) = true) → isValidStageId stId = true →
        isValidTimestamp ts = true → 0 ≤ ec →
        (∃ m, validManifestOf h fs (emergency h rT rI cI sI stId reason ts nb env ec) = some m) ∧
        (resume h fs [emergency h rT rI cI sI stId reason ts nb env ec]).found = true ∧
        ((resume h fs [emergency h rT rI cI sI stId reason ts nb env ec]).payload.map
          (fun ok => ok.checkpoint.body.status) = some .interrupted) ∧
        ((resume h fs [emergency h rT rI cI sI stId reason ts nb env ec]).payload.map
          (fun ok => ok.checkpoint.body.reason) = some (some reason))) := by
  intro h rT rI cI sI stId reason ts nb env ec fs
  refine ⟨⟨emergencyManifest h rT rI cI sI stId reason ts nb env ec, rfl, rfl, rfl, rfl⟩, ?_⟩
  intro hhex hstage hts hec
  have hschema :
      validateCheckpointManifest (emergencyManifest h rT rI cI sI stId reason ts nb env ec) = [] := by
    refine (validate_eq_nil_iff _).mpr ⟨hts, hec, hstage, ?_, hhex _, ?_⟩
    · intro a ha
      simp [emergencyManifest, emergencyBody, emergencyBodyCore] at ha
    · intro hst
      simp [emergencyManifest, emergencyBody, emergencyBodyCore] at hst
  have hseal : sealOk h (emergencyManifest h rT rI cI sI stId reason ts nb env ec) = true := by
    simp [sealOk, emergencyManifest]
  have hsch : schemaOk (emergencyManifest h rT rI cI sI stId reason ts nb env ec) = true := by
    simp [schemaOk, hschema]
  have hart : (emergencyManifest h rT rI cI sI stId reason ts nb env ec).body.artifacts = [] := rfl
  have hdeep : deepValid h fs (emergencyManifest h rT rI cI sI stId reason ts nb env ec) = true := by
    simp [deepValid, hseal, hsch, hart]
  have hvm : validManifestOf h fs (emergency h rT rI cI sI stId reason ts nb env ec) =
      some (emergencyManifest h rT rI cI sI stId reason ts nb env ec) := by
    simp [validManifestOf, emergency, hdeep]
  have hscan : scanEntries h fs [emergency h rT rI cI sI stId reason ts nb env ec] =
      some (emergency h rT rI cI sI stId reason ts nb env ec,
        emergencyManifest h rT rI cI sI stId reason ts nb env ec, 1) := by
    simp [scanEntries, hvm]
  have hsort : sortByCreatedDesc [emergency h rT rI cI sI stId reason ts nb env ec] =
      [emergency h rT rI cI sI stId reason ts nb env ec] := rfl
  refine ⟨⟨_, hvm⟩, ?_, ?_, ?_⟩
  · simp [resume, hsort, hscan]
  · simp [resume, hsort, hscan]
    rfl
  · simp [resume, hsort, hscan]
    rfl

/-- C6 witness: the emergency fixture (declaring stage `S02_eda_analysis`,
reason `timeout`) written with no artifacts on disk is found by `resume`,
with status `interrupted` and the given reason. -/
theorem emergency_checkpoint_resumable_witness :
    (resume Demo.hashA [] [Demo.emergencyEntry]).found = true ∧
    ((resume Demo.hashA [] [Demo.emergencyEntry]).payload.map
      (fun ok => ok.checkpoint.body.reason) = some (some .timeout)) := by
  obtain ⟨-, h2⟩ := emergency_checkpoint_resumable Demo.hashA "demo" "run-001" "ckpt-em"
    "ses_demo" "S02_eda_analysis" .timeout "2026-01-02T10:00:00Z" Demo.notebook0 Demo.env0 0 []
  obtain ⟨-, hfound, -, hreason⟩ := h2 (fun _ => rfl) (by decide) (by decide) (by decide)
  exact ⟨hfound, hreason⟩

/-- C8: with an empty checkpoint directory `resume` returns a successful
result with `found := false` and `searchedCount := 0`; when no stored
candidate validates it likewise returns success with `found := false` and
`searchedCount` equal to the number of candidates examined — never an
error. -/
theorem resume_not_found_is_success :
    (∀ (h : HashFn) (fs : FileSys),
      resume h fs [] =
        { success := true, found := false, searchedCount := 0, payload := none }) ∧
    (∀ (h : HashFn) (fs : FileSys) (entries : List Entry),
      (∀ e ∈ entries, validManifestOf h fs e = none) →
      resume h fs entries =
        { success := true, found := false, searchedCount := entries.length,
          payload := none }) := by
  constructor
  · intro h fs
    exact resume_all_invalid (by simp)
  · intro h fs entries hall
    exact resume_all_invalid hall

/-- C8 witness: the empty store, and a store whose only candidate is the
tampered checkpoint, both yield a successful not-found result with the
number of candidates examined. -/
theorem resume_not_found_is_success_witness :
    resume Demo.hashA [] [] =
      { success := true, found := false, searchedCount := 0, payload := none } ∧
    resume Demo.hashA [] [Demo.entry3bad] =
      { success := true, found := false, searchedCount := 1, payload := none } := by
  constructor
  · exact resume_not_found_is_success.1 Demo.hashA []
  · exact resume_not_found_is_success.2 Demo.hashA [] [Demo.entry3bad] (by decide)

/-- C7: for every validated manifest, the generator emits exactly one
deduplicated import per artifact kind actually present (pandas for
`.parquet`/`.csv`, pickle for `.pkl`, joblib for `.joblib`, json for
`.json`), one load expression per artifact of a known kind referencing its
`relativePath` (`pd.read_parquet`, `pd.read_csv`, `pickle.load`,
`joblib.load`, `json.load`), and a final line printing
`[REHYDRATED:from=<checkpointId>]`. -/
theorem rehydration_generator_emits :
    ∀ m : Manifest, validateCheckpointManifest m = [] →
      ((generateRehydrationCode m.body).count "import pandas as pd" =
        if needsPandas m.body.artifacts then 1 else 0) ∧
      ((generateRehydrationCode m.body).count "import pickle" =
        if needsPickle m.body.artifacts then 1 else 0) ∧
      ((generateRehydrationCode m.body).count "import joblib" =
        if needsJoblib m.body.artifacts then 1 else 0) ∧
      ((generateRehydrationCode m.body).count "import json" =
        if needsJson m.body.artifacts then 1 else 0) ∧
      (∀ a ∈ m.body.artifacts,
        (artifactKind a = .parquet →
          (varNameOf a.relativePath ++ " = pd.read_parquet(\"" ++ a.relativePath ++ "\")")
            ∈ generateRehydrationCode m.body) ∧
        (artifactKind a = .csv →
          (varNameOf a.relativePath ++ " = pd.read_csv(\"" ++ a.relativePath ++ "\")")
            ∈ generateRehydrationCode m.body) ∧
        (artifactKind a = .pkl →
          ("with open(\"" ++ a.relativePath ++ "\", \"rb\") as f:")
            ∈ generateRehydrationCode m.body ∧
          ("    " ++ varNameOf a.relativePath ++ " = pickle.load(f)")
            ∈ generateRehydrationCode m.body) ∧
        (artifactKind a = .joblib →
          (varNameOf a.relativePath ++ " = joblib.load(\"" ++ a.relativePath ++ "\")")
            ∈ generateRehydrationCode m.body) ∧
        (artifactKind a = .json →
          ("with open(\"" ++ a.relativePath ++ "\", \"r\") as f:")
            ∈ generateRehydrationCode m.body ∧
          ("    " ++ varNameOf a.relativePath ++ " = json.load(f)")
            ∈ generateRehydrationCode m.body)) ∧
      (generateRehydrationCode m.body).getLast? =
        some ("print(\"[REHYDRATED:from=" ++ m.body.checkpointId ++ "]\")") := by
  intro m _
  have hcount : ∀ s : String, '(' ∉ s.data → s ≠ "import random" →
      s ≠ "import numpy as np" →
      (generateRehydrationCode m.body).count s =
        (["# Rehydration cell - auto-generated by checkpoint-manager",
          "# Load artifacts from checkpoint"]).count s +
        (rehydrationImports m.body.artifacts).count s := by
    intro s hp h1 h2
    unfold generateRehydrationCode
    simp [List.count_append, List.count_cons, count_loadLines_eq_zero hp,
      count_seedLines_eq_zero hp h1 h2, count_markerLine_eq_zero hp]
    omega
  have hsub : ∀ a ∈ m.body.artifacts, ∀ s ∈ artifactLoadLines a,
      s ∈ generateRehydrationCode m.body := by
    intro a ha s hs
    unfold generateRehydrationCode
    exact List.mem_append_left _ (List.mem_append_left _ (List.mem_append_right _
      (List.mem_flatMap.mpr ⟨a, ha, hs⟩)))
  refine ⟨?_, ?_, ?_, ?_, ?_, ?_⟩
  · rw [hcount "import pandas as pd" (by decide) (by decide) (by decide)]
    unfold rehydrationImports
    by_cases h1 : needsPandas m.body.artifacts = true <;>
      by_cases h2 : needsPickle m.body.artifacts = true <;>
      by_cases h3 : needsJoblib m.body.artifacts = true <;>
      by_cases h4 : needsJson m.body.artifacts = true <;>
      simp [h1, h2, h3, h4]
  · rw [hcount "import pickle" (by decide) (by decide) (by decide)]
    unfold rehydrationImports
    by_cases h1 : needsPandas m.body.artifacts = true <;>
      by_cases h2 : needsPickle m.body.artifacts = true <;>
      by_cases h3 : needsJoblib m.body.artifacts = true <;>
      by_cases h4 : needsJson m.body.artifacts = true <;>
      simp [h1, h2, h3, h4]
  · rw [hcount "import joblib" (by decide) (by decide) (by decide)]
    unfold rehydrationImports
    by_cases h1 : needsPandas m.body.artifacts = true <;>
      by_cases h2 : needsPickle m.body.artifacts = true <;>
      by_cases h3 : needsJoblib m.body.artifacts = true <;>
      by_cases h4 : needsJson m.body.artifacts = true <;>
      simp [h1, h2, h3, h4]
  · rw [hcount "import json" (by decide) (by decide) (by decide)]
    unfold rehydrationImports
    by_cases h1 : needsPandas m.body.artifacts = true <;>
      by_cases h2 : needsPickle m.body.artifacts = true <;>
      by_cases h3 : needsJoblib m.body.artifacts = true <;>
      by_cases h4 : needsJson m.body.artifacts = true <;>
      simp [h1, h2, h3, h4]
  · intro a ha
    refine ⟨?_, ?_, ?_, ?_, ?_⟩
    · intro hk
      exact hsub a ha _ (by unfold artifactLoadLines; rw [hk]; simp)
    · intro hk
      exact hsub a ha _ (by unfold artifactLoadLines; rw [hk]; simp)
    · intro hk
      exact ⟨hsub a ha _ (by unfold artifactLoadLines; rw [hk]; simp),
        hsub a ha _ (by unfold artifactLoadLines; rw [hk]; simp)⟩
    · intro hk
      exact hsub a ha _ (by unfold artifactLoadLines; rw [hk]; simp)
    · intro hk
      exact ⟨hsub a ha _ (by unfold artifactLoadLines; rw [hk]; simp),
        hsub a ha _ (by unfold artifactLoadLines; rw [hk]; simp)⟩
  · unfold generateRehydrationCode rehydratedMarkerLine
    exact List.getLast?_concat _

/-- C7 witness: the fixture manifest with one parquet artifact validates;
its generated code counts one pandas import, contains the
`pd.read_parquet` load line for the artifact's relative path, and ends with
the `REHYDRATED` marker line. -/
theorem rehydration_generator_emits_witness :
    ((generateRehydrationCode Demo.artifactBody).count "import pandas as pd" =
      if needsPandas Demo.artifactBody.artifacts then 1 else 0) ∧
    ((varNameOf Demo.parquetArtifact.relativePath ++ " = pd.read_parquet(\"" ++
        Demo.parquetArtifact.relativePath ++ "\")") ∈
      generateRehydrationCode Demo.artifactBody) ∧
    (generateRehydrationCode Demo.artifactBody).getLast? =
      some ("print(\"[REHYDRATED:from=" ++ Demo.artifactBody.checkpointId ++ "]\")") := by
  have h := rehydration_generator_emits Demo.artifactManifest (by decide)
  exact ⟨h.1, (h.2.2.2.2.1 Demo.parquetArtifact (by decide)).1 (by decide),
    h.2.2.2.2.2⟩

/-- C9: `prune` (default `keepCount` 5) deletes only checkpoints beyond the
`keepCount` most recent, in oldest-first order, never the checkpoint
`resume` would currently select (every kept entry is among the `keepCount`
most recent or is that selection), and pruning the pruned store again with
the same `keepCount` deletes nothing — prune is idempotent. -/
theorem prune_retention_policy :
    defaultKeepCount = 5 ∧
    ∀ (h : HashFn) (fs : FileSys) (k : Nat) (entries : List Entry),
      (∀ e ∈ (prune h fs k entries).deleted, e ∈ (sortByCreatedDesc entries).drop k) ∧
      List.Pairwise (fun a b => lexLe (entryKey a) (entryKey b) = true)
        (prune h fs k entries).deleted ∧
      (∀ e, firstValid h fs entries = some e → e ∉ (prune h fs k entries).deleted) ∧
      (∀ e ∈ (prune h fs k entries).kept,
        e ∈ (sortByCreatedDesc entries).take k ∨ firstValid h fs entries = some e) ∧
      prune h fs k (prune h fs k entries).kept =
        { kept := (prune h fs k entries).kept, deleted := [] } :=
  ⟨rfl, fun h fs k entries =>
    ⟨prune_deleted_subset h fs k entries, prune_deleted_oldest_first h fs k entries,
     prune_preserves_selection h fs k entries, prune_kept_mem h fs k entries,
     prune_idempotent h fs k entries⟩⟩

/-- C9 witness: a store whose newest checkpoint is tampered and whose
older checkpoint is the resume selection, pruned with `keepCount = 1`: the
selection survives outside the keep window and the second prune is a
no-op. -/
theorem prune_retention_policy_witness :
    (prune Demo.hashA [] 1 [Demo.entry1, Demo.entry3bad]).deleted = [] ∧
    Demo.entry1 ∉ (prune Demo.hashA [] 1 [Demo.entry1, Demo.entry3bad]).deleted ∧
    prune Demo.hashA [] 1 (prune Demo.hashA [] 1 [Demo.entry1, Demo.entry3bad]).kept =
      { kept := (prune Demo.hashA [] 1 [Demo.entry1, Demo.entry3bad]).kept,
        deleted := [] } := by
  refine ⟨by decide, ?_, ?_⟩
  · exact (prune_retention_policy.2 Demo.hashA [] 1 [Demo.entry1, Demo.entry3bad]).2.2.1
      Demo.entry1 (by decide)
  · exact (prune_retention_policy.2 Demo.hashA [] 1 [Demo.entry1, Demo.entry3bad]).2.2.2.2

/-- C10: `parseMarkers` is total on unknown marker types: every
marker-shaped line is kept (the marker list counts exactly the lines that
parse), each marker's `valid` flag records taxonomy membership of its type,
an invalid marker's type is recorded in `unknownTypes`, and `unknownCount`
counts exactly the invalid markers while `validCount + unknownCount`
exhausts the marker list — unknown-typed lines are neither dropped nor an
error. -/
theorem parseMarkers_total_on_unknown :
    ∀ text : String,
      (parseMarkers text).markers.length =
        ((splitLines text).countP (fun l => (parseMarkerLine l).isSome)) ∧
      (∀ l ∈ splitLines text, ∀ mk, parseMarkerLine l = some mk →
        mk ∈ (parseMarkers text).markers) ∧
      (parseMarkers text).validCount + (parseMarkers text).unknownCount =
        (parseMarkers text).markers.length ∧
      (parseMarkers text).unknownCount =
        ((parseMarkers text).markers.filter (fun mk => !mk.valid)).length ∧
      (∀ mk ∈ (parseMarkers text).markers,
        mk.valid = taxonomyHas mk.type ∧
        (mk.valid = false → mk.type ∈ (parseMarkers text).unknownTypes)) := by
  intro text
  refine ⟨?_, ?_, ?_, rfl, ?_⟩
  · exact List.length_filterMap_eq_countP _ _
  · intro l hl mk hmk
    exact List.mem_filterMap.mpr ⟨l, hl, hmk⟩
  · exact filter_valid_split _
  · intro mk hmk
    obtain ⟨l, -, hml⟩ := List.mem_filterMap.mp hmk
    refine ⟨parseMarkerLine_valid hml, fun hinvalid => ?_⟩
    exact List.mem_map.mpr ⟨mk, List.mem_filter.mpr ⟨hmk, by simp [hinvalid]⟩, rfl⟩

/-- C10 witness: the line `[UNKNOWN_MARKER] Some content` parses to one
marker with `valid := false`, its type lands in `unknownTypes`, and
`unknownCount` is 1. -/
theorem parseMarkers_total_on_unknown_witness :
    (parseMarkers "[UNKNOWN_MARKER] Some content").markers.length = 1 ∧
    (parseMarkers "[UNKNOWN_MARKER] Some content").unknownCount = 1 ∧
    "UNKNOWN_MARKER" ∈ (parseMarkers "[UNKNOWN_MARKER] Some content").unknownTypes := by
  refine ⟨by decide, by decide, ?_⟩
  have h := (parseMarkers_total_on_unknown "[UNKNOWN_MARKER] Some content").2.2.2.2
    { type := "UNKNOWN_MARKER", subtype := none, attributes := [],
      content := "Some content", valid := false } (by decide)
  exact h.2 rfl

end Gyoshu
